import Mathlib

set_option allowUnsafeReducibility true in
attribute [semireducible] Rat.mul Rat.add Rat.sub Rat.inv Nat.gcd

set_option maxRecDepth 16000

/-!
Verification of the pbrt-v4 BxDF module (src/pbrt/bxdfs.h).

A shallow embedding of the scattering-function variants and of the layered
material engine of the repository, over exact rational arithmetic.  The
transcendental primitives the code consumes (`std::exp`, `std::log`,
square roots, the constant pi) are collected in a `MathModel` parameter so
that every definition stays executable; interface BxDFs and the phase
function, which the layered engine treats as collaborators, are passed as
records of functions, exactly as the C++ templates do.
-/

namespace PbrtSpec

/-- A 3-vector in the local shading frame (`Vector3f`); the z axis is the
shading normal. -/
structure Vec3 where
  x : ℚ
  y : ℚ
  z : ℚ
deriving DecidableEq

def Vec3.neg (v : Vec3) : Vec3 := ⟨-v.x, -v.y, -v.z⟩

instance : Neg Vec3 := ⟨Vec3.neg⟩

def Vec3.add (a b : Vec3) : Vec3 := ⟨a.x + b.x, a.y + b.y, a.z + b.z⟩

instance : Add Vec3 := ⟨Vec3.add⟩

/-- Scalar multiple of a vector. -/
def Vec3.scale (v : Vec3) (t : ℚ) : Vec3 := ⟨v.x * t, v.y * t, v.z * t⟩

/-- `Dot(a, b)`. -/
def dot (a b : Vec3) : ℚ := a.x * b.x + a.y * b.y + a.z * b.z

/-- `LengthSquared(v)`. -/
def lenSq (v : Vec3) : ℚ := dot v v

/-- `AbsDot(a, b)`. -/
def absDot (a b : Vec3) : ℚ := |dot a b|

/-- `AbsCosTheta(w) = |w.z|`. -/
def absCosTheta (w : Vec3) : ℚ := |w.z|

/-- A fixed-size spectral sample (`SampledSpectrum`), modelled with three
components; all arithmetic is componentwise as in the source. -/
structure Spectrum where
  c0 : ℚ
  c1 : ℚ
  c2 : ℚ
deriving DecidableEq

def Spectrum.add (a b : Spectrum) : Spectrum := ⟨a.c0 + b.c0, a.c1 + b.c1, a.c2 + b.c2⟩

instance : Add Spectrum := ⟨Spectrum.add⟩

def Spectrum.mul (a b : Spectrum) : Spectrum := ⟨a.c0 * b.c0, a.c1 * b.c1, a.c2 * b.c2⟩

instance : Mul Spectrum := ⟨Spectrum.mul⟩

/-- Multiplication of a spectrum by a scalar. -/
def Spectrum.scale (s : Spectrum) (t : ℚ) : Spectrum := ⟨s.c0 * t, s.c1 * t, s.c2 * t⟩

/-- Componentwise division by a scalar. -/
def Spectrum.divScalar (s : Spectrum) (t : ℚ) : Spectrum := ⟨s.c0 / t, s.c1 / t, s.c2 / t⟩

/-- `SampledSpectrum(q)`: the constant spectrum. -/
def Spectrum.ofRat (q : ℚ) : Spectrum := ⟨q, q, q⟩

instance : Zero Spectrum := ⟨Spectrum.ofRat 0⟩

/-- `MaxComponentValue()`. -/
def Spectrum.maxComponent (s : Spectrum) : ℚ := max s.c0 (max s.c1 s.c2)

/-- The C++ `explicit operator bool` of `SampledSpectrum` is true when some
component is nonzero; `isZero` is its negation. -/
def Spectrum.isZero (s : Spectrum) : Bool := s.c0 = 0 && s.c1 = 0 && s.c2 = 0

/-- `BxDFFlags`: bitmask over reflection/transmission and
diffuse/glossy/specular. -/
structure BxDFFlags where
  reflection : Bool := false
  transmission : Bool := false
  diffuse : Bool := false
  glossy : Bool := false
  specular : Bool := false
deriving DecidableEq

def BxDFFlags.diffuseReflection : BxDFFlags := { reflection := true, diffuse := true }
def BxDFFlags.diffuseTransmission : BxDFFlags := { transmission := true, diffuse := true }
def BxDFFlags.glossyReflection : BxDFFlags := { reflection := true, glossy := true }
def BxDFFlags.glossyTransmission : BxDFFlags := { transmission := true, glossy := true }
def BxDFFlags.specularReflection : BxDFFlags := { reflection := true, specular := true }
def BxDFFlags.specularTransmission : BxDFFlags := { transmission := true, specular := true }

/-- `BxDFReflTransFlags`. -/
structure ReflTransFlags where
  reflection : Bool
  transmission : Bool
deriving DecidableEq

def ReflTransFlags.all : ReflTransFlags := ⟨true, true⟩
def ReflTransFlags.reflectionOnly : ReflTransFlags := ⟨true, false⟩
def ReflTransFlags.transmissionOnly : ReflTransFlags := ⟨false, true⟩

/-- `TransportMode`. -/
inductive TransportMode where
  | Radiance
  | Importance
deriving DecidableEq

/-- The C++ `!mode`. -/
def TransportMode.flip : TransportMode → TransportMode
  | .Radiance => .Importance
  | .Importance => .Radiance

/-- `BSDFSample`. -/
structure BSDFSample where
  f : Spectrum
  wi : Vec3
  pdf : ℚ
  flags : BxDFFlags
  pdfIsProportional : Bool := false
deriving DecidableEq

def BSDFSample.IsReflection (s : BSDFSample) : Bool := s.flags.reflection
def BSDFSample.IsTransmission (s : BSDFSample) : Bool := s.flags.transmission

/-- The transcendental primitives consumed by the module (`std::exp`,
`std::log`, square root, pi), abstracted so every definition stays exact
and executable. -/
structure MathModel where
  pi : ℚ
  sqrt : ℚ → ℚ
  exp : ℚ → ℚ
  log : ℚ → ℚ

/-- Integer square root by Newton iteration with explicit fuel. -/
def natSqrtIter (x : ℕ) : ℕ → ℕ → ℕ
  | 0, g => g
  | fuel + 1, g =>
    let g2 := (g + x / g) / 2
    if g2 < g then natSqrtIter x fuel g2 else g

/-- Integer square root (floor), exact on perfect squares. -/
def natSqrtFast (x : ℕ) : ℕ := if x = 0 then 0 else natSqrtIter x 200 x

/-- An exact-on-perfect-squares rational square-root model, usable as the
`sqrt` field of a concrete `MathModel`. -/
def ratSqrt (x : ℚ) : ℚ := (natSqrtFast (x.num.toNat * x.den) : ℚ) / (x.den : ℚ)

/-- `Clamp(val, low, high)`. -/
def clamp (val low high : ℚ) : ℚ := if val < low then low else if val > high then high else val

/-- Modelled from the spec: `Lerp(x, a, b) = (1-x)*a + x*b`
(`util/math.h`, which is not under `src/`). -/
def lerp (x a b : ℚ) : ℚ := (1 - x) * a + x * b

/-- Modelled from the spec: the power heuristic of multiple importance
sampling, `(nf*fPdf)^2 / ((nf*fPdf)^2 + (ng*gPdf)^2)`
(`PowerHeuristic`, `util/sampling.h`, which is not under `src/`);
a zero denominator yields 0 in exact arithmetic, as the guarded source
does. -/
def powerHeuristic (nf fPdf ng gPdf : ℚ) : ℚ :=
  (nf * fPdf) ^ 2 / ((nf * fPdf) ^ 2 + (ng * gPdf) ^ 2)

/-- Modelled from the spec: sampling a free-flight distance from an
exponential distribution, `SampleExponential(u, a) = -log(1-u)/a`
(`util/sampling.h`, which is not under `src/`). -/
def sampleExponential (M : MathModel) (u a : ℚ) : ℚ := -(M.log (1 - u)) / a

/-- `std::numeric_limits<Float>::min()` for the 32-bit `Float`. -/
def floatMinPos : ℚ := 1 / 2 ^ 126

/-- `OneMinusEpsilon` for the 32-bit `Float`. -/
def oneMinusEpsilon : ℚ := 1 - 1 / 2 ^ 24

/-- One pseudo-random draw: the code's per-call closure
`min(rng.Uniform<Float>(), OneMinusEpsilon)`, over an abstract stream. -/
def rDraw (stream : ℕ → ℚ) (n : ℕ) : ℚ := min (stream n) oneMinusEpsilon

/-- Modelled from the spec: dielectric Fresnel reflectance by the
polarization-averaged formula with total-internal-reflection detection
(`FrDielectric`, `util/scattering.h`, which is not under `src/`). -/
def frDielectric (M : MathModel) (cosTheta_i eta : ℚ) : ℚ :=
  let c0 := clamp cosTheta_i (-1) 1
  let c := if c0 < 0 then -c0 else c0
  let e := if c0 < 0 then 1 / eta else eta
  let sin2Theta_i := 1 - c ^ 2
  let sin2Theta_t := sin2Theta_i / e ^ 2
  if 1 ≤ sin2Theta_t then 1
  else
    let cosTheta_t := M.sqrt (max 0 (1 - sin2Theta_t))
    let r_parl := (e * c - cosTheta_t) / (e * c + cosTheta_t)
    let r_perp := (c - e * cosTheta_t) / (c + e * cosTheta_t)
    (r_parl ^ 2 + r_perp ^ 2) / 2

/-- Modelled from the spec: `FaceForward(n, v)` flips `n` to lie in the
hemisphere of `v` (`util/vecmath.h`, which is not under `src/`). -/
def faceforward (n v : Vec3) : Vec3 := if dot n v < 0 then -n else n

/-- Modelled from the spec: refraction by Snell's law with
total-internal-reflection detection; `none` is the `false` return of the
C++ `Refract(wi, n, eta, *wt)` (`util/vecmath.h`, not under `src/`). -/
def refract (M : MathModel) (wi n : Vec3) (eta : ℚ) : Option Vec3 :=
  let cosTheta_i := dot n wi
  let sin2Theta_i := max 0 (1 - cosTheta_i ^ 2)
  let sin2Theta_t := sin2Theta_i / eta ^ 2
  if 1 ≤ sin2Theta_t then none
  else
    let cosTheta_t := M.sqrt (max 0 (1 - sin2Theta_t))
    some (((-wi).scale (1 / eta)) + n.scale (cosTheta_i / eta - cosTheta_t))

/-- Modelled from the spec: `Normalize(v) = v / Length(v)` through the
abstract square root (`util/vecmath.h`, not under `src/`). -/
def normalize (M : MathModel) (v : Vec3) : Vec3 :=
  let l := M.sqrt (lenSq v)
  ⟨v.x / l, v.y / l, v.z / l⟩

/-- Modelled from the spec: `SinTheta(w) = sqrt(max(0, 1 - w.z^2))` in the
shading frame (`util/vecmath.h`, not under `src/`). -/
def sinTheta (M : MathModel) (w : Vec3) : ℚ := M.sqrt (max 0 (1 - w.z ^ 2))

/-- Modelled from the spec: `CosDPhi(wa, wb)`, the cosine of the azimuthal
angle between two directions (`util/vecmath.h`, not under `src/`). -/
def cosDPhi (M : MathModel) (wa wb : Vec3) : ℚ :=
  let waxy := wa.x ^ 2 + wa.y ^ 2
  let wbxy := wb.x ^ 2 + wb.y ^ 2
  if waxy = 0 ∨ wbxy = 0 then 1
  else clamp ((wa.x * wb.x + wa.y * wb.y) / M.sqrt (waxy * wbxy)) (-1) 1

/-- Modelled from the spec: the cosine-weighted hemisphere density
`CosineHemispherePDF(cosTheta) = cosTheta / pi` (`util/sampling.h`,
not under `src/`). -/
def cosineHemispherePDF (M : MathModel) (cosTheta : ℚ) : ℚ := cosTheta * (1 / M.pi)

/-- `Radians(deg) = pi/180 * deg` (`util/math.h`, not under `src/`,
modelled from its standard meaning referenced by the spec). -/
def radians (M : MathModel) (deg : ℚ) : ℚ := (M.pi / 180) * deg

/-! ## IdealDiffuseBxDF -/

/-- `IdealDiffuseBxDF`. -/
structure IdealDiffuseBxDF where
  R : Spectrum
deriving DecidableEq

/-- `IdealDiffuseBxDF::f`. -/
def IdealDiffuseBxDF.f (M : MathModel) (B : IdealDiffuseBxDF) (wo wi : Vec3)
    (_mode : TransportMode) : Spectrum :=
  if ¬ 0 < wo.z * wi.z then 0
  else B.R.scale (1 / M.pi)

/-- `IdealDiffuseBxDF::PDF`. -/
def IdealDiffuseBxDF.PDF (M : MathModel) (_B : IdealDiffuseBxDF) (wo wi : Vec3)
    (_mode : TransportMode) (sampleFlags : ReflTransFlags) : ℚ :=
  if ¬ sampleFlags.reflection ∨ ¬ 0 < wo.z * wi.z then 0
  else cosineHemispherePDF M (absCosTheta wi)

/-- `IdealDiffuseBxDF::getDiffuseReflectance`. -/
def IdealDiffuseBxDF.getDiffuseReflectance (B : IdealDiffuseBxDF) : Spectrum := B.R

/-! ## DiffuseBxDF (Oren--Nayar) -/

/-- `DiffuseBxDF` with the two coefficients the constructor precomputes. -/
structure DiffuseBxDF where
  R : Spectrum
  T : Spectrum
  A : ℚ
  B : ℚ
deriving DecidableEq

/-- The `DiffuseBxDF` constructor: `A`, `B` from the roughness angle. -/
def mkDiffuseBxDF (M : MathModel) (R T : Spectrum) (sigma : ℚ) : DiffuseBxDF :=
  let sigma2 := (radians M sigma) ^ 2
  ⟨R, T, 1 - sigma2 / (2 * (sigma2 + 33 / 100)), (45 / 100) * sigma2 / (sigma2 + 9 / 100)⟩

/-- `DiffuseBxDF::f`. -/
def DiffuseBxDF.f (M : MathModel) (D : DiffuseBxDF) (wo wi : Vec3)
    (_mode : TransportMode) : Spectrum :=
  if D.B = 0 then (if 0 < wo.z * wi.z then D.R.scale (1 / M.pi) else D.T.scale (1 / M.pi))
  else if (0 < wo.z * wi.z ∧ D.R.isZero) ∨ (¬ 0 < wo.z * wi.z ∧ D.T.isZero) then 0
  else
    let sinTheta_i := sinTheta M wi
    let sinTheta_o := sinTheta M wo
    let maxCos := max 0 (cosDPhi M wi wo)
    let sinAlpha := if absCosTheta wi > absCosTheta wo then sinTheta_o else sinTheta_i
    let tanBeta := if absCosTheta wi > absCosTheta wo then sinTheta_i / absCosTheta wi
      else sinTheta_o / absCosTheta wo
    if 0 < wo.z * wi.z then D.R.scale ((1 / M.pi) * (D.A + D.B * maxCos * sinAlpha * tanBeta))
    else D.T.scale ((1 / M.pi) * (D.A + D.B * maxCos * sinAlpha * tanBeta))

/-! ## Smooth specular variants -/

/-- `SpecularTransmissionBxDF` (after the constructor, which nudges
`eta == 1` to `1.001`). -/
structure SpecularTransmissionBxDF where
  eta : ℚ
  T : Spectrum
deriving DecidableEq

/-- The `SpecularTransmissionBxDF` constructor. -/
def mkSpecularTransmissionBxDF (eta : ℚ) (T : Spectrum) : SpecularTransmissionBxDF :=
  ⟨if eta = 1 then 1001 / 1000 else eta, T⟩

/-- `SpecularTransmissionBxDF::f` is identically zero. -/
def SpecularTransmissionBxDF.f (_B : SpecularTransmissionBxDF) (_wo _wi : Vec3)
    (_mode : TransportMode) : Spectrum := 0

/-- `SpecularTransmissionBxDF::PDF` is identically zero. -/
def SpecularTransmissionBxDF.PDF (_B : SpecularTransmissionBxDF) (_wo _wi : Vec3)
    (_mode : TransportMode) (_sampleFlags : ReflTransFlags) : ℚ := 0

/-- `SpecularTransmissionBxDF::Sample_f`. -/
def SpecularTransmissionBxDF.sample_f (M : MathModel) (B : SpecularTransmissionBxDF)
    (wo : Vec3) (_uc : ℚ) (_u : ℚ × ℚ) (mode : TransportMode)
    (sampleFlags : ReflTransFlags) : Option BSDFSample :=
  if wo.z = 0 then none
  else if ¬ sampleFlags.transmission then none
  else
    let entering := 0 < wo.z
    let etap := if entering then B.eta else 1 / B.eta
    match refract M wo (faceforward ⟨0, 0, 1⟩ wo) etap with
    | none => none
    | some wi =>
      let ft := B.T.scale ((1 - frDielectric M wo.z B.eta) / absCosTheta wi)
      let ft2 := if mode = TransportMode.Radiance then ft.scale (1 / etap ^ 2) else ft
      some ⟨ft2, wi, 1, BxDFFlags.specularTransmission, false⟩

/-- `SpecularReflectionBxDF` (constructor nudge as above). -/
structure SpecularReflectionBxDF where
  eta : ℚ
  R : Spectrum
deriving DecidableEq

/-- `SpecularReflectionBxDF::f` is identically zero. -/
def SpecularReflectionBxDF.f (_B : SpecularReflectionBxDF) (_wo _wi : Vec3)
    (_mode : TransportMode) : Spectrum := 0

/-- `SpecularReflectionBxDF::PDF` is identically zero. -/
def SpecularReflectionBxDF.PDF (_B : SpecularReflectionBxDF) (_wo _wi : Vec3)
    (_mode : TransportMode) (_sampleFlags : ReflTransFlags) : ℚ := 0

/-- `SpecularReflectionBxDF::Sample_f`. -/
def SpecularReflectionBxDF.sample_f (M : MathModel) (B : SpecularReflectionBxDF)
    (wo : Vec3) (_uc : ℚ) (_u : ℚ × ℚ) (_mode : TransportMode)
    (sampleFlags : ReflTransFlags) : Option BSDFSample :=
  if ¬ sampleFlags.reflection then none
  else
    let wi : Vec3 := ⟨-wo.x, -wo.y, wo.z⟩
    let fr := B.R.scale (frDielectric M wo.z B.eta / absCosTheta wi)
    some ⟨fr, wi, 1, BxDFFlags.specularReflection, false⟩

/-! ## ThinDielectricBxDF -/

/-- `ThinDielectricBxDF`. -/
structure ThinDielectricBxDF where
  eta : ℚ
deriving DecidableEq

/-- The reflectance/transmittance correction computed at the start of
`ThinDielectricBxDF::Sample_f`: starting from the single-interface Fresnel
reflectance `R0`, account for scattering between the two interfaces. -/
def thinDielectricRT (R0 : ℚ) : ℚ × ℚ :=
  let T := 1 - R0
  if R0 < 1 then
    let R := R0 + T * T * R0 / (1 - R0 * R0)
    (R, 1 - R)
  else (R0, T)

/-- `ThinDielectricBxDF::f` is identically zero. -/
def ThinDielectricBxDF.f (_B : ThinDielectricBxDF) (_wo _wi : Vec3)
    (_mode : TransportMode) : Spectrum := 0

/-- `ThinDielectricBxDF::PDF` is identically zero. -/
def ThinDielectricBxDF.PDF (_B : ThinDielectricBxDF) (_wo _wi : Vec3)
    (_mode : TransportMode) (_sampleFlags : ReflTransFlags) : ℚ := 0

/-- `ThinDielectricBxDF::Sample_f`. -/
def ThinDielectricBxDF.sample_f (M : MathModel) (B : ThinDielectricBxDF)
    (wo : Vec3) (uc : ℚ) (_u : ℚ × ℚ) (_mode : TransportMode)
    (sampleFlags : ReflTransFlags) : Option BSDFSample :=
  let RT := thinDielectricRT (frDielectric M wo.z B.eta)
  let R := RT.1
  let T := RT.2
  let pr := if sampleFlags.reflection then R else 0
  let pt := if sampleFlags.transmission then T else 0
  if pr = 0 ∧ pt = 0 then none
  else if uc < pr / (pr + pt) then
    let wi : Vec3 := ⟨-wo.x, -wo.y, wo.z⟩
    some ⟨Spectrum.ofRat (R / absCosTheta wi), wi, pr / (pr + pt),
      BxDFFlags.specularReflection, false⟩
  else
    let wi : Vec3 := -wo
    some ⟨Spectrum.ofRat (T / absCosTheta wi), wi, pt / (pr + pt),
      BxDFFlags.specularTransmission, false⟩

/-! ## ConductorBxDF -/

/-- The externally supplied Trowbridge--Reitz microfacet distribution,
consumed (not reimplemented) by the module: its normal-distribution value,
shadowing-masking term, half-vector density and smoothness test. -/
structure TRDistribModel where
  D : Vec3 → ℚ
  G : Vec3 → Vec3 → ℚ
  pdf : Vec3 → Vec3 → ℚ
  effectivelySmooth : Bool

/-- `ConductorBxDF`. -/
structure ConductorBxDF where
  mfDistrib : TRDistribModel
  eta : Spectrum
  k : Spectrum

/-- `ConductorBxDF::f`, with the conductor Fresnel term `FrConductor`
(external, `util/scattering.h`) supplied as a function. -/
def ConductorBxDF.f (M : MathModel) (frConductor : ℚ → Spectrum → Spectrum → Spectrum)
    (C : ConductorBxDF) (wo wi : Vec3) (_mode : TransportMode) : Spectrum :=
  if ¬ 0 < wo.z * wi.z then 0
  else if C.mfDistrib.effectivelySmooth then 0
  else
    let cosTheta_o := absCosTheta wo
    let cosTheta_i := absCosTheta wi
    if cosTheta_i = 0 ∨ cosTheta_o = 0 then 0
    else
      let wh := wi + wo
      if wh.x = 0 ∧ wh.y = 0 ∧ wh.z = 0 then 0
      else
        let whn := normalize M wh
        let F := frConductor (absDot wi whn) C.eta C.k
        F.scale (C.mfDistrib.D whn * C.mfDistrib.G wo wi / (4 * cosTheta_i * cosTheta_o))

/-- `ConductorBxDF::PDF`. -/
def ConductorBxDF.PDF (M : MathModel) (C : ConductorBxDF) (wo wi : Vec3)
    (_mode : TransportMode) (sampleFlags : ReflTransFlags) : ℚ :=
  if ¬ sampleFlags.reflection then 0
  else if ¬ 0 < wo.z * wi.z then 0
  else if C.mfDistrib.effectivelySmooth then 0
  else
    let wh := wo + wi
    if lenSq wh = 0 ∨ dot wo wh ≤ 0 then 0
    else
      let whn := normalize M wh
      C.mfDistrib.pdf wo whn / (4 * dot wo whn)

/-! ## NormalizedFresnelBxDF -/

/-- `NormalizedFresnelBxDF`. -/
structure NormalizedFresnelBxDF where
  eta : ℚ
deriving DecidableEq

/-- `NormalizedFresnelBxDF::f`, with the external `FresnelMoment1`
(`bssrdf` utility code, not under `src/`) supplied as a function. -/
def NormalizedFresnelBxDF.f (M : MathModel) (fresnelMoment1 : ℚ → ℚ)
    (B : NormalizedFresnelBxDF) (wo wi : Vec3) (mode : TransportMode) : Spectrum :=
  if ¬ 0 < wo.z * wi.z then 0
  else
    let c := 1 - 2 * fresnelMoment1 (1 / B.eta)
    let f0 := Spectrum.ofRat ((1 - frDielectric M wi.z B.eta) / (c * M.pi))
    if mode = TransportMode.Radiance then f0.scale (B.eta ^ 2) else f0

/-- `NormalizedFresnelBxDF::PDF`. -/
def NormalizedFresnelBxDF.PDF (M : MathModel) (_B : NormalizedFresnelBxDF)
    (wo wi : Vec3) (_mode : TransportMode) (sampleFlags : ReflTransFlags) : ℚ :=
  if ¬ sampleFlags.reflection then 0
  else if 0 < wo.z * wi.z then absCosTheta wi * (1 / M.pi) else 0

/-! ## The layered-material engine -/

/-- One concrete interface BxDF as the layered engine sees it: the four
contract operations plus flags and approximate albedo.  The C++
`LayeredBxDF` is a template over two such interface types; the embedding
passes the two instances as records of functions. -/
structure AbsBxDF where
  f : Vec3 → Vec3 → TransportMode → Spectrum
  sample_f : Vec3 → ℚ → ℚ × ℚ → TransportMode → ReflTransFlags → Option BSDFSample
  pdf : Vec3 → Vec3 → TransportMode → ReflTransFlags → ℚ
  flags : BxDFFlags
  diffuseReflectance : Spectrum

/-- `TopOrBottomBxDF::IsNonSpecular`: `flags & (Diffuse | Glossy)`. -/
def AbsBxDF.isNonSpecular (b : AbsBxDF) : Bool := b.flags.diffuse || b.flags.glossy

/-- `PhaseFunctionSample`. -/
structure PhaseSample where
  p : ℚ
  wi : Vec3
  pdf : ℚ
deriving DecidableEq

/-- The Henyey--Greenstein phase function consumed by the engine
(`HGPhaseFunction`, `media.h`, not under `src/`): evaluation, sampling and
density, abstracted as a record. -/
structure PhaseFunction where
  p : Vec3 → Vec3 → ℚ
  sample_p : Vec3 → ℚ × ℚ → Option PhaseSample
  pdf : Vec3 → Vec3 → ℚ

/-- `LayeredBxDFConfig` (defaults as in the source). -/
structure LayeredBxDFConfig where
  maxDepth : ℕ := 10
  nSamples : ℕ := 1
  twoSided : Bool := true
deriving DecidableEq

/-- `TopOrBottomBxDF`: a non-owning reference to exactly one of the two
interfaces.  Null pointers are modelled by `none`; an operation that
dereferences a null pointer returns `none` at the operation level. -/
structure TopOrBottomBxDF where
  top : Option AbsBxDF := none
  bottom : Option AbsBxDF := none

/-- `operator=(const TopBxDF *t)`: sets `top`, nulls `bottom`. -/
def TopOrBottomBxDF.assignTop (t : AbsBxDF) : TopOrBottomBxDF := ⟨some t, none⟩

/-- `operator=(const BottomBxDF *b)`: sets `bottom`, nulls `top`. -/
def TopOrBottomBxDF.assignBottom (b : AbsBxDF) : TopOrBottomBxDF := ⟨none, some b⟩

/-- `TopOrBottomBxDF::getDiffuseReflectance`:
`top->getDiffuseReflectance() + bottom->getDiffuseReflectance()` reads
through BOTH stored pointers unconditionally, so the result is defined
only when both are non-null. -/
def TopOrBottomBxDF.getDiffuseReflectance (s : TopOrBottomBxDF) : Option Spectrum :=
  match s.top, s.bottom with
  | some t, some b => some (t.diffuseReflectance + b.diffuseReflectance)
  | _, _ => none

/-- `TopOrBottomBxDF::f`: `top ? top->f(...) : bottom->f(...)`. -/
def TopOrBottomBxDF.fOp (s : TopOrBottomBxDF) (wo wi : Vec3) (mode : TransportMode) :
    Option Spectrum :=
  match s.top with
  | some t => some (t.f wo wi mode)
  | none =>
    match s.bottom with
    | some b => some (b.f wo wi mode)
    | none => none

/-- `TopOrBottomBxDF::Sample_f`. -/
def TopOrBottomBxDF.sampleOp (s : TopOrBottomBxDF) (wo : Vec3) (uc : ℚ) (u : ℚ × ℚ)
    (mode : TransportMode) (sampleFlags : ReflTransFlags) : Option (Option BSDFSample) :=
  match s.top with
  | some t => some (t.sample_f wo uc u mode sampleFlags)
  | none =>
    match s.bottom with
    | some b => some (b.sample_f wo uc u mode sampleFlags)
    | none => none

/-- `TopOrBottomBxDF::PDF`. -/
def TopOrBottomBxDF.pdfOp (s : TopOrBottomBxDF) (wo wi : Vec3) (mode : TransportMode)
    (sampleFlags : ReflTransFlags) : Option ℚ :=
  match s.top with
  | some t => some (t.pdf wo wi mode sampleFlags)
  | none =>
    match s.bottom with
    | some b => some (b.pdf wo wi mode sampleFlags)
    | none => none

/-- `TopOrBottomBxDF::Flags`. -/
def TopOrBottomBxDF.flagsOp (s : TopOrBottomBxDF) : Option BxDFFlags :=
  match s.top with
  | some t => some t.flags
  | none =>
    match s.bottom with
    | some b => some b.flags
    | none => none

/-- `LayeredBxDF` after construction: the constructor floors `thickness`
at the smallest positive `Float`. -/
structure LayeredBxDF where
  top : AbsBxDF
  bottom : AbsBxDF
  thickness : ℚ
  g : ℚ
  albedo : Spectrum
  config : LayeredBxDFConfig

/-- The `LayeredBxDF` constructor. -/
def mkLayeredBxDF (top bottom : AbsBxDF) (thickness : ℚ) (albedo : Spectrum) (g : ℚ)
    (config : LayeredBxDFConfig) : LayeredBxDF :=
  ⟨top, bottom, max thickness floatMinPos, g, albedo, config⟩

/-- `LayeredBxDF::Tr(dz, w)`. -/
def LayeredBxDF.Tr (M : MathModel) (dz : ℚ) (w : Vec3) : ℚ :=
  if |dz| ≤ floatMinPos then 1
  else M.exp (-|dz / w.z|)

/-- State of the random walk inside `LayeredBxDF::Sample_f`: the
accumulated spectrum `f`, the accumulated density `pdf`, the current
direction `w`, the current depth coordinate `z`, and the index `n` of the
next value of the call's random stream. -/
structure SState where
  f : Spectrum
  pdf : ℚ
  w : Vec3
  z : ℚ
  n : ℕ
deriving DecidableEq

/-- The interface event at the end of one `Sample_f` walk iteration
(source lines 966--993): sample the interface at the current boundary; a
transmissive sample leaves the layers and is returned tagged by the
hemisphere of `wo`, a reflective sample continues the walk. -/
def LayeredBxDF.sampleInterface (L : LayeredBxDF) (stream : ℕ → ℚ)
    (wo : Vec3) (mode : TransportMode) (flipWi : Bool)
    (recurse : SState → Option BSDFSample) (st : SState) : Option BSDFSample :=
  let itf := if st.z = 0 then L.bottom else L.top
  let uc := rDraw stream st.n
  let u := (rDraw stream (st.n + 1), rDraw stream (st.n + 2))
  match itf.sample_f (-st.w) uc u mode ReflTransFlags.all with
  | none => none
  | some bs =>
    if bs.f.isZero ∨ bs.pdf = 0 ∨ bs.wi.z = 0 then none
    else
      let f2 := st.f * bs.f
      let pdf2 := st.pdf * bs.pdf
      if bs.IsTransmission then
        let flags := if 0 < wo.z * bs.wi.z then BxDFFlags.glossyReflection
          else BxDFFlags.glossyTransmission
        let wRet := if flipWi then -bs.wi else bs.wi
        some ⟨f2, wRet, pdf2, flags, true⟩
      else
        recurse { f := f2.scale (absCosTheta bs.wi), pdf := pdf2, w := bs.wi,
                  z := st.z, n := st.n + 3 }

/-- One `Sample_f` walk iteration after the Russian-roulette test (source
lines 931--993): the degenerate-direction check, then either closed-form
slab transmittance (zero albedo) or sampled medium scattering, then the
interface event. -/
def LayeredBxDF.sampleWalkRest (L : LayeredBxDF) (M : MathModel) (phase : PhaseFunction)
    (stream : ℕ → ℚ) (wo : Vec3) (mode : TransportMode) (flipWi : Bool)
    (recurse : SState → Option BSDFSample) (st : SState) : Option BSDFSample :=
  if st.w.z = 0 then none
  else if ¬ L.albedo.isZero then
    let dz := sampleExponential M (rDraw stream st.n) (1 / absCosTheta st.w)
    let zp := if 0 < st.w.z then st.z + dz else st.z - dz
    if zp = st.z then none
    else if 0 < zp ∧ zp < L.thickness then
      match phase.sample_p (-st.w) (rDraw stream (st.n + 1), rDraw stream (st.n + 2)) with
      | none => none
      | some ps =>
        if ps.pdf = 0 ∨ ps.wi.z = 0 then none
        else
          recurse { f := st.f * (L.albedo.scale ps.p), pdf := st.pdf * ps.pdf,
                    w := ps.wi, z := zp, n := st.n + 3 }
    else
      L.sampleInterface stream wo mode flipWi recurse
        { st with z := clamp zp 0 L.thickness, n := st.n + 1 }
  else
    L.sampleInterface stream wo mode flipWi recurse
      { st with z := if st.z = L.thickness then 0 else L.thickness,
                f := st.f.scale (LayeredBxDF.Tr M L.thickness st.w) }

/-- The `for (depth = 0; depth < maxDepth; ++depth)` walk of
`LayeredBxDF::Sample_f`, with `fuel = maxDepth - depth` remaining
iterations; running out of fuel is the loop falling through to the final
`return {}`.  Each iteration first applies the Russian-roulette test of
source lines 923--930. -/
def LayeredBxDF.sampleWalk (L : LayeredBxDF) (M : MathModel) (phase : PhaseFunction)
    (stream : ℕ → ℚ) (wo : Vec3) (mode : TransportMode) (flipWi : Bool) :
    ℕ → ℕ → SState → Option BSDFSample
  | 0, _, _ => none
  | fuel + 1, depth, st =>
    let rrBeta := st.f.maxComponent / st.pdf
    if 3 < depth ∧ rrBeta < 1 / 4 then
      let q := max 0 (1 - rrBeta)
      if rDraw stream st.n < q then none
      else
        L.sampleWalkRest M phase stream wo mode flipWi
          (L.sampleWalk M phase stream wo mode flipWi fuel (depth + 1))
          { st with pdf := st.pdf * (1 - q), n := st.n + 1 }
    else
      L.sampleWalkRest M phase stream wo mode flipWi
        (L.sampleWalk M phase stream wo mode flipWi fuel (depth + 1)) st

/-- `LayeredBxDF::Sample_f` given the seeded random stream of the call
(the stream the code builds from `Hash(seed, wo)` and `Hash(uc, u)`);
`sampleFlags` is `All`, the only case the code admits (its `CHECK`). -/
def LayeredBxDF.sampleFStream (L : LayeredBxDF) (M : MathModel) (phase : PhaseFunction)
    (stream : ℕ → ℚ) (wo0 : Vec3) (uc : ℚ) (u : ℚ × ℚ) (mode : TransportMode) :
    Option BSDFSample :=
  let flipWi := L.config.twoSided && decide (wo0.z < 0)
  let wo := if flipWi then -wo0 else wo0
  let enteredTop := 0 < wo.z
  match (if enteredTop then L.top.sample_f wo uc u mode ReflTransFlags.all
         else L.bottom.sample_f wo uc u mode ReflTransFlags.all) with
  | none => none
  | some bs =>
    if bs.f.isZero ∨ bs.pdf = 0 ∨ bs.wi.z = 0 then none
    else if bs.IsReflection then
      some { bs with wi := if flipWi then -bs.wi else bs.wi }
    else
      L.sampleWalk M phase stream wo mode flipWi L.config.maxDepth 0
        { f := bs.f.scale (absCosTheta bs.wi), pdf := bs.pdf, w := bs.wi,
          z := if enteredTop then L.thickness else 0, n := 0 }

/-- `LayeredBxDF::Sample_f`: the per-call stream is drawn from the family
`rngFam` at the two seeds the code hashes, `Hash(seed, wo)` (with the
already-flipped `wo`) and `Hash(uc, u)`. -/
def LayeredBxDF.sample_f (L : LayeredBxDF) (M : MathModel) (phase : PhaseFunction)
    (rngFam : ℕ → ℕ → ℕ → ℚ) (hashDir : ℕ → Vec3 → ℕ) (hashU : ℚ → ℚ × ℚ → ℕ)
    (seed : ℕ) (wo0 : Vec3) (uc : ℚ) (u : ℚ × ℚ) (mode : TransportMode) :
    Option BSDFSample :=
  let flipWi := L.config.twoSided && decide (wo0.z < 0)
  let wo := if flipWi then -wo0 else wo0
  L.sampleFStream M phase (rngFam (hashDir seed wo) (hashU uc u)) wo0 uc u mode

/-- State of one random walk inside `LayeredBxDF::f`: the running
estimate `fAcc` (the `f` the code accumulates into), the walk throughput
`beta`, current direction `w`, depth coordinate `z`, and the next stream
index `n`. -/
structure FState where
  fAcc : Spectrum
  beta : Spectrum
  w : Vec3
  z : ℚ
  n : ℕ
deriving DecidableEq

/-- The interface event of one `f` walk iteration (source lines
831--877): a reflective bounce at the exit interface, or next-event
estimation plus a reflective bounce at the non-exit interface.  The
result of the walk is the pair (accumulated estimate, next stream
index). -/
def LayeredBxDF.fInterface (L : LayeredBxDF) (M : MathModel)
    (stream : ℕ → ℚ) (mode : TransportMode) (wi : Vec3)
    (exitI nonExitI : AbsBxDF) (exitZ : ℚ) (wis : BSDFSample)
    (recurse : FState → Spectrum × ℕ) (st : FState) : Spectrum × ℕ :=
  if st.z = exitZ then
    let uc := rDraw stream st.n
    match exitI.sample_f (-st.w) uc (rDraw stream (st.n + 1), rDraw stream (st.n + 2))
        mode ReflTransFlags.reflectionOnly with
    | none => (st.fAcc, st.n + 3)
    | some bs =>
      if bs.f.isZero ∨ bs.pdf = 0 ∨ bs.wi.z = 0 then (st.fAcc, st.n + 3)
      else
        recurse { st with beta := (st.beta * bs.f).scale (absCosTheta bs.wi / bs.pdf),
                          w := bs.wi, n := st.n + 3 }
  else
    let fAcc1 :=
      if ¬ nonExitI.flags.specular then
        let wt := if ¬ exitI.flags.specular then
            powerHeuristic 1 wis.pdf 1 (nonExitI.pdf (-st.w) (-wis.wi) mode ReflTransFlags.all)
          else 1
        st.fAcc + (st.beta * nonExitI.f (-st.w) (-wis.wi) mode * wis.f).scale
          (absCosTheta wis.wi * wt * LayeredBxDF.Tr M L.thickness wis.wi / wis.pdf)
      else st.fAcc
    let uc := rDraw stream st.n
    let u := (rDraw stream (st.n + 1), rDraw stream (st.n + 2))
    match nonExitI.sample_f (-st.w) uc u mode ReflTransFlags.reflectionOnly with
    | none => (fAcc1, st.n + 3)
    | some bs =>
      if bs.f.isZero ∨ bs.pdf = 0 ∨ bs.wi.z = 0 then (fAcc1, st.n + 3)
      else
        let beta2 := (st.beta * bs.f).scale (absCosTheta bs.wi / bs.pdf)
        let fAcc2 :=
          if ¬ exitI.flags.specular then
            let fExit := exitI.f (-bs.wi) wi mode
            if ¬ fExit.isZero then
              let wt := if ¬ nonExitI.flags.specular then
                  powerHeuristic 1 bs.pdf 1
                    (exitI.pdf (-bs.wi) wi mode ReflTransFlags.transmissionOnly)
                else 1
              fAcc1 + (beta2 * fExit).scale (LayeredBxDF.Tr M L.thickness bs.wi * wt)
            else fAcc1
          else fAcc1
        recurse { fAcc := fAcc2, beta := beta2, w := bs.wi, z := st.z, n := st.n + 3 }

/-- One `f` walk iteration after the Russian-roulette test (source lines
783--877): medium advance (closed-form transmittance or sampled
scattering with next-event estimation), then the interface event. -/
def LayeredBxDF.fWalkRest (L : LayeredBxDF) (M : MathModel) (phase : PhaseFunction)
    (stream : ℕ → ℚ) (mode : TransportMode) (wi : Vec3)
    (exitI nonExitI : AbsBxDF) (exitZ : ℚ) (wis : BSDFSample)
    (recurse : FState → Spectrum × ℕ) (st : FState) : Spectrum × ℕ :=
  if ¬ L.albedo.isZero then
    let dz := sampleExponential M (rDraw stream st.n) (1 / |st.w.z|)
    let zp := if 0 < st.w.z then st.z + dz else st.z - dz
    if st.z = zp then recurse { st with n := st.n + 1 }
    else if 0 < zp ∧ zp < L.thickness then
      let wt := if ¬ exitI.flags.specular then
          powerHeuristic 1 wis.pdf 1 (phase.pdf (-st.w) (-wis.wi))
        else 1
      let fAcc1 := st.fAcc + (st.beta * L.albedo * wis.f).scale
        (phase.p (-st.w) (-wis.wi) * wt * LayeredBxDF.Tr M (zp - exitZ) wis.wi / wis.pdf)
      match phase.sample_p (-st.w) (rDraw stream (st.n + 1), rDraw stream (st.n + 2)) with
      | none => recurse { st with fAcc := fAcc1, n := st.n + 3 }
      | some ps =>
        if ps.pdf = 0 ∨ ps.wi.z = 0 then recurse { st with fAcc := fAcc1, n := st.n + 3 }
        else
          let beta2 := (st.beta * L.albedo).scale (ps.p / ps.pdf)
          let fAcc2 :=
            if ¬ exitI.flags.specular then
              let fExit := exitI.f (-ps.wi) wi mode
              if ¬ fExit.isZero then
                let exitPDF := exitI.pdf (-ps.wi) wi mode ReflTransFlags.transmissionOnly
                let weight := powerHeuristic 1 ps.pdf 1 exitPDF
                fAcc1 + (beta2 * fExit).scale (LayeredBxDF.Tr M (zp - exitZ) ps.wi * weight)
              else fAcc1
            else fAcc1
          recurse { fAcc := fAcc2, beta := beta2, w := ps.wi, z := zp, n := st.n + 3 }
    else
      L.fInterface M stream mode wi exitI nonExitI exitZ wis recurse
        { st with z := clamp zp 0 L.thickness, n := st.n + 1 }
  else
    L.fInterface M stream mode wi exitI nonExitI exitZ wis recurse
      { st with z := if st.z = L.thickness then 0 else L.thickness,
                beta := st.beta.scale (LayeredBxDF.Tr M L.thickness st.w) }

/-- The `for (depth = 0; depth < maxDepth; ++depth)` walk of
`LayeredBxDF::f`; each iteration first applies the Russian-roulette test
of source lines 773--781 (termination keeps the estimate accumulated so
far, survival divides the throughput by `1 - q`). -/
def LayeredBxDF.fWalk (L : LayeredBxDF) (M : MathModel) (phase : PhaseFunction)
    (stream : ℕ → ℚ) (mode : TransportMode) (wi : Vec3)
    (exitI nonExitI : AbsBxDF) (exitZ : ℚ) (wis : BSDFSample) :
    ℕ → ℕ → FState → Spectrum × ℕ
  | 0, _, st => (st.fAcc, st.n)
  | fuel + 1, depth, st =>
    if 3 < depth ∧ st.beta.maxComponent < 1 / 4 then
      let q := max 0 (1 - st.beta.maxComponent)
      if rDraw stream st.n < q then (st.fAcc, st.n + 1)
      else
        L.fWalkRest M phase stream mode wi exitI nonExitI exitZ wis
          (L.fWalk M phase stream mode wi exitI nonExitI exitZ wis fuel (depth + 1))
          { st with beta := st.beta.divScalar (1 - q), n := st.n + 1 }
    else
      L.fWalkRest M phase stream mode wi exitI nonExitI exitZ wis
        (L.fWalk M phase stream mode wi exitI nonExitI exitZ wis fuel (depth + 1)) st

/-- One of the `nSamples` independent walks of `LayeredBxDF::f` (source
lines 746--878): sample a transmissive entry, pre-sample the exit draw
used for next-event estimation, then run the depth loop. -/
def LayeredBxDF.fOneSample (L : LayeredBxDF) (M : MathModel) (phase : PhaseFunction)
    (stream : ℕ → ℚ) (mode : TransportMode) (wo wi : Vec3)
    (enterI exitI nonExitI : AbsBxDF) (exitZ : ℚ) (enteredTop : Bool)
    (fAcc : Spectrum) (n : ℕ) : Spectrum × ℕ :=
  let uc := rDraw stream n
  match enterI.sample_f wo uc (rDraw stream (n + 1), rDraw stream (n + 2)) mode
      ReflTransFlags.transmissionOnly with
  | none => (fAcc, n + 3)
  | some wos =>
    if wos.f.isZero ∨ wos.pdf = 0 ∨ wos.wi.z = 0 then (fAcc, n + 3)
    else
      let beta0 := wos.f.scale (absCosTheta wos.wi / wos.pdf)
      let uc2 := rDraw stream (n + 3)
      match exitI.sample_f wi uc2 (rDraw stream (n + 4), rDraw stream (n + 5)) mode.flip
          ReflTransFlags.transmissionOnly with
      | none => (fAcc, n + 6)
      | some wis =>
        if wis.f.isZero ∨ wis.pdf = 0 ∨ wis.wi.z = 0 then (fAcc, n + 6)
        else
          L.fWalk M phase stream mode wi exitI nonExitI exitZ wis L.config.maxDepth 0
            { fAcc := fAcc, beta := beta0, w := wos.wi,
              z := if enteredTop then L.thickness else 0, n := n + 6 }

/-- The `for (s = 0; s < nSamples; ++s)` loop of `LayeredBxDF::f`,
threading the running estimate and the stream index through the
samples. -/
def LayeredBxDF.fSamples (L : LayeredBxDF) (M : MathModel) (phase : PhaseFunction)
    (stream : ℕ → ℚ) (mode : TransportMode) (wo wi : Vec3)
    (enterI exitI nonExitI : AbsBxDF) (exitZ : ℚ) (enteredTop : Bool) :
    ℕ → Spectrum × ℕ → Spectrum × ℕ
  | 0, acc => acc
  | k + 1, acc =>
    L.fSamples M phase stream mode wo wi enterI exitI nonExitI exitZ enteredTop k
      (L.fOneSample M phase stream mode wo wi enterI exitI nonExitI exitZ enteredTop
        acc.1 acc.2)

/-- `LayeredBxDF::f` given the seeded random stream of the call (the
stream the code builds from `Hash(seed, wo)` and `Hash(wi)`). -/
def LayeredBxDF.fStream (L : LayeredBxDF) (M : MathModel) (phase : PhaseFunction)
    (stream : ℕ → ℚ) (wo0 wi0 : Vec3) (mode : TransportMode) : Spectrum :=
  let flipped := L.config.twoSided && decide (wo0.z < 0)
  let wo := if flipped then -wo0 else wo0
  let wi := if flipped then -wi0 else wi0
  let enteredTop := 0 < wo.z
  let enterI := if enteredTop then L.top else L.bottom
  let exitAtBottom := xor (decide (0 < wo.z * wi.z)) (decide (0 < wo.z))
  let exitI := if exitAtBottom then L.bottom else L.top
  let nonExitI := if exitAtBottom then L.top else L.bottom
  let exitZ := if exitAtBottom then 0 else L.thickness
  let f0 := if 0 < wo.z * wi.z then (enterI.f wo wi mode).scale (L.config.nSamples : ℚ)
    else 0
  let res := L.fSamples M phase stream mode wo wi enterI exitI nonExitI exitZ
    (decide enteredTop) L.config.nSamples (f0, 0)
  res.1.divScalar (L.config.nSamples : ℚ)

/-- `LayeredBxDF::f`: the per-call stream is drawn from the family
`rngFam` at the seeds `Hash(seed, wo)` and `Hash(wi)` (with the
already-flipped directions). -/
def LayeredBxDF.fEval (L : LayeredBxDF) (M : MathModel) (phase : PhaseFunction)
    (rngFam : ℕ → ℕ → ℕ → ℚ) (hashDir : ℕ → Vec3 → ℕ) (hashW : Vec3 → ℕ)
    (seed : ℕ) (wo0 wi0 : Vec3) (mode : TransportMode) : Spectrum :=
  let flipped := L.config.twoSided && decide (wo0.z < 0)
  let wo := if flipped then -wo0 else wo0
  let wi := if flipped then -wi0 else wi0
  L.fStream M phase (rngFam (hashDir seed wo) (hashW wi)) wo0 wi0 mode

/-- The same-hemisphere (transmit-reflect-transmit) branch of one
iteration of the `LayeredBxDF::PDF` loop (source lines 1026--1067), with
the reflecting and transmitting interfaces already selected; returns the
amount added to `pdfSum` and the next stream index. -/
def LayeredBxDF.pdfTRT (rI tI : AbsBxDF) (stream : ℕ → ℚ) (wo wi : Vec3)
    (mode : TransportMode) (n : ℕ) : ℚ × ℕ :=
  let wosOpt := tI.sample_f wo (rDraw stream n) (rDraw stream (n + 1), rDraw stream (n + 2))
    mode ReflTransFlags.transmissionOnly
  let wisOpt := tI.sample_f wi (rDraw stream (n + 3))
    (rDraw stream (n + 4), rDraw stream (n + 5)) mode.flip ReflTransFlags.transmissionOnly
  match wosOpt, wisOpt with
  | some wos, some wis =>
    if ¬ wos.f.isZero ∧ 0 < wos.pdf ∧ ¬ wis.f.isZero ∧ 0 < wis.pdf then
      if ¬ tI.isNonSpecular then
        (rI.pdf (-wos.wi) (-wis.wi) mode ReflTransFlags.all, n + 6)
      else
        match rI.sample_f (-wos.wi) (rDraw stream (n + 6))
            (rDraw stream (n + 7), rDraw stream (n + 8)) mode ReflTransFlags.all with
        | none => (0, n + 9)
        | some rs =>
          if rs.f.isZero ∨ rs.pdf = 0 then (0, n + 9)
          else if ¬ rI.isNonSpecular then
            (tI.pdf (-rs.wi) wi mode ReflTransFlags.all, n + 9)
          else
            let tPDF := tI.pdf (-rs.wi) wi mode ReflTransFlags.all
            let rPDF := rI.pdf (-wos.wi) (-wis.wi) mode ReflTransFlags.all
            (powerHeuristic 1 rs.pdf 1 tPDF * tPDF +
             powerHeuristic 1 wis.pdf 1 rPDF * rPDF, n + 9)
    else (0, n + 6)
  | _, _ => (0, n + 6)

/-- The opposite-hemisphere (transmit-transmit) branch of one iteration
of the `LayeredBxDF::PDF` loop (source lines 1069--1102). -/
def LayeredBxDF.pdfTT (toI tiI : AbsBxDF) (stream : ℕ → ℚ) (wo wi : Vec3)
    (mode : TransportMode) (n : ℕ) : ℚ × ℕ :=
  match toI.sample_f wo (rDraw stream n) (rDraw stream (n + 1), rDraw stream (n + 2))
      mode ReflTransFlags.all with
  | none => (0, n + 3)
  | some wos =>
    if wos.f.isZero ∨ wos.pdf = 0 ∨ wos.wi.z = 0 ∨ wos.IsReflection then (0, n + 3)
    else
      match tiI.sample_f wi (rDraw stream (n + 3))
          (rDraw stream (n + 4), rDraw stream (n + 5)) mode.flip ReflTransFlags.all with
      | none => (0, n + 6)
      | some wis =>
        -- the source rechecks the `wos` fields here (line 1090), verbatim
        if wos.f.isZero ∨ wos.pdf = 0 ∨ wos.wi.z = 0 ∨ wis.IsReflection then (0, n + 6)
        else if toI.flags.specular then
          (tiI.pdf (-wos.wi) wi mode ReflTransFlags.all, n + 6)
        else if tiI.flags.specular then
          (toI.pdf wo (-wis.wi) mode ReflTransFlags.all, n + 6)
        else
          ((toI.pdf wo (-wis.wi) mode ReflTransFlags.all +
            tiI.pdf (-wos.wi) wi mode ReflTransFlags.all) / 2, n + 6)

/-- One iteration of the `for (s = 0; s < nSamples; ++s)` loop of
`LayeredBxDF::PDF` (source lines 1024--1103): the same-hemisphere branch
evaluates the transmit-reflect-transmit term, the other branch the
transmit-transmit term. -/
def LayeredBxDF.pdfBodyAux (L : LayeredBxDF) (stream : ℕ → ℚ) (wo wi : Vec3)
    (mode : TransportMode) (enteredTop : Bool) (n : ℕ) : ℚ × ℕ :=
  if 0 < wo.z * wi.z then
    LayeredBxDF.pdfTRT (if enteredTop then L.bottom else L.top)
      (if enteredTop then L.top else L.bottom) stream wo wi mode n
  else
    LayeredBxDF.pdfTT (if enteredTop then L.top else L.bottom)
      (if enteredTop then L.bottom else L.top) stream wo wi mode n

/-- The `nSamples` iterations of the `LayeredBxDF::PDF` loop, threading
`pdfSum` and the stream index. -/
def LayeredBxDF.pdfLoop (L : LayeredBxDF) (stream : ℕ → ℚ) (wo wi : Vec3)
    (mode : TransportMode) (enteredTop : Bool) : ℕ → ℚ × ℕ → ℚ × ℕ
  | 0, acc => acc
  | k + 1, acc =>
    let d := L.pdfBodyAux stream wo wi mode enteredTop acc.2
    L.pdfLoop stream wo wi mode enteredTop k (acc.1 + d.1, d.2)

/-- `LayeredBxDF::PDF` given the seeded random stream of the call:
initial entrance-reflection density, the stochastic loop, and the final
`Lerp(0.9, 1/(4 Pi), pdfSum/nSamples)` blend. -/
def LayeredBxDF.pdfStream (L : LayeredBxDF) (M : MathModel) (stream : ℕ → ℚ)
    (wo0 wi0 : Vec3) (mode : TransportMode) : ℚ :=
  let flipped := L.config.twoSided && decide (wo0.z < 0)
  let wo := if flipped then -wo0 else wo0
  let wi := if flipped then -wi0 else wi0
  let enteredTop := decide (0 < wo.z)
  let pdfSum0 :=
    if 0 < wo.z * wi.z then
      (L.config.nSamples : ℚ) *
        (if enteredTop then L.top.pdf wo wi mode ReflTransFlags.reflectionOnly
         else L.bottom.pdf wo wi mode ReflTransFlags.reflectionOnly)
    else 0
  let res := L.pdfLoop stream wo wi mode enteredTop L.config.nSamples (pdfSum0, 0)
  lerp (9 / 10) (1 / (4 * M.pi)) (res.1 / (L.config.nSamples : ℚ))

/-- `LayeredBxDF::PDF`: the per-call stream is drawn from the family
`rngFam` at the seeds `Hash(seed, wo)` and `Hash(wi)` (with the
already-flipped directions). -/
def LayeredBxDF.pdfEval (L : LayeredBxDF) (M : MathModel)
    (rngFam : ℕ → ℕ → ℕ → ℚ) (hashDir : ℕ → Vec3 → ℕ) (hashW : Vec3 → ℕ)
    (seed : ℕ) (wo0 wi0 : Vec3) (mode : TransportMode) : ℚ :=
  let flipped := L.config.twoSided && decide (wo0.z < 0)
  let wo := if flipped then -wo0 else wo0
  let wi := if flipped then -wi0 else wi0
  L.pdfStream M (rngFam (hashDir seed wo) (hashW wi)) wo0 wi0 mode

/-! ## Spec-side definitions and concrete evaluation instances -/

/-- Modelled from the spec: the Russian-roulette trigger the specification
describes, "once depth > 3 and throughput falls below a quarter of its
starting value"; compared against the condition the source actually
uses. -/
def specRRTriggered (depth : ℕ) (throughput startThroughput : ℚ) : Bool :=
  decide (3 < depth) && decide (throughput < startThroughput / 4)

/-- A concrete transcendental model, for evaluating the embedding at
concrete inputs. -/
def concreteModel : MathModel :=
  ⟨314159 / 100000, ratSqrt, fun _ => 1, fun _ => 0⟩

/-- A phase function that never scatters, for concrete runs with zero
albedo (where it is never consulted). -/
def phaseInert : PhaseFunction := ⟨fun _ _ => 0, fun _ _ => none, fun _ _ => 0⟩

/-- Concrete top interface for walk probes: transmits straight down on
entry from above, reflects straight down when hit from below. -/
def probeTop : AbsBxDF where
  f := fun _ _ _ => 0
  sample_f := fun w _uc _u _mode _sampleFlags =>
    if 0 < w.z then
      some ⟨Spectrum.ofRat (1 / 2), ⟨0, 0, -1⟩, 1, BxDFFlags.glossyTransmission, false⟩
    else
      some ⟨Spectrum.ofRat (1 / 2), ⟨0, 0, -1⟩, 1, BxDFFlags.glossyReflection, false⟩
  pdf := fun _ _ _ _ => 1
  flags := BxDFFlags.glossyTransmission
  diffuseReflectance := 0

/-- Concrete bottom interface for walk probes: reflects straight up while
`uc < 1/2`, transmits straight down otherwise. -/
def probeBottom : AbsBxDF where
  f := fun _ _ _ => 0
  sample_f := fun _w uc _u _mode _sampleFlags =>
    if uc < 1 / 2 then
      some ⟨Spectrum.ofRat (1 / 2), ⟨0, 0, 1⟩, 1, BxDFFlags.glossyReflection, false⟩
    else
      some ⟨Spectrum.ofRat 1, ⟨0, 0, -1⟩, 1, BxDFFlags.glossyTransmission, false⟩
  pdf := fun _ _ _ _ => 1
  flags := BxDFFlags.glossyReflection
  diffuseReflectance := 0

/-- A concrete layered material built from the probe interfaces, with
minimal slab thickness and zero albedo. -/
def probeLayered : LayeredBxDF :=
  mkLayeredBxDF probeTop probeBottom 0 0 0 {}

/-- The concrete random stream of the probe run: the depth-4
Russian-roulette draw survives (index 12), and the depth-4 interface draw
selects transmission (index 13). -/
def probeStream : ℕ → ℚ :=
  fun n => if n = 12 then 31 / 32 else if n = 13 then 3 / 4 else 0

/-- The probe stream as a seeded family. -/
def probeFam : ℕ → ℕ → ℕ → ℚ := fun _ _ => probeStream

/-- The sample the probe run returns. -/
def probeOut : BSDFSample :=
  ⟨⟨1 / 32, 1 / 32, 1 / 32⟩, ⟨0, 0, -1⟩, 1 / 32, BxDFFlags.glossyTransmission, true⟩

/-- Trivial hash models for concrete runs. -/
def hashDir0 : ℕ → Vec3 → ℕ := fun _ _ => 0

def hashU0 : ℚ → ℚ × ℚ → ℕ := fun _ _ => 0

def hashW0 : Vec3 → ℕ := fun _ => 0

/-- A top interface that answers every sample request with a perfect
specular mirror reflection, as a smooth dielectric entrance interface
does. -/
def mirrorTop : AbsBxDF where
  f := fun _ _ _ => 0
  sample_f := fun w _uc _u _mode _sampleFlags =>
    some ⟨Spectrum.ofRat 1, ⟨-w.x, -w.y, w.z⟩, 1, BxDFFlags.specularReflection, false⟩
  pdf := fun _ _ _ _ => 0
  flags := BxDFFlags.specularReflection
  diffuseReflectance := 0

/-- A layered material whose entrance interface reflects specularly. -/
def mirrorLayered : LayeredBxDF :=
  mkLayeredBxDF mirrorTop probeBottom 0 0 0 {}

/-- A constant interface used to instantiate hypotheses about arbitrary
interface densities at concrete inputs. -/
def unitPdfBxDF : AbsBxDF where
  f := fun _ _ _ => 0
  sample_f := fun _ _ _ _ _ => none
  pdf := fun _ _ _ _ => 1
  flags := BxDFFlags.glossyReflection
  diffuseReflectance := 0

/-- A concrete layered material with both interfaces of unit density. -/
def unitLayered : LayeredBxDF :=
  mkLayeredBxDF unitPdfBxDF unitPdfBxDF 0 0 0 {}

/-- A concrete effectively-smooth conductor. -/
def smoothConductor : ConductorBxDF :=
  ⟨⟨fun _ => 1, fun _ _ => 1, fun _ _ => 1, true⟩, 0, 0⟩

/-- A concrete rough conductor with a symmetric shadowing-masking term. -/
def roughConductor : ConductorBxDF :=
  ⟨⟨fun _ => 1, fun _ _ => 1, fun _ _ => 1, false⟩, 0, 0⟩

/-! ## Helper lemmas -/

theorem Vec3.neg_x (v : Vec3) : (-v).x = -v.x := rfl

theorem Vec3.neg_y (v : Vec3) : (-v).y = -v.y := rfl

theorem Vec3.neg_z (v : Vec3) : (-v).z = -v.z := rfl

theorem Vec3.neg_neg (v : Vec3) : -(-v) = v := by
  cases v
  show Vec3.neg (Vec3.neg _) = _
  simp [Vec3.neg]

theorem powerHeuristic_nonneg (nf fPdf ng gPdf : ℚ) : 0 ≤ powerHeuristic nf fPdf ng gPdf := by
  unfold powerHeuristic
  positivity

/-! ## Claim theorems -/

/-- C6: in `ThinDielectricBxDF::Sample_f`, for every refractive index and
every incidence cosine in (0, 1], the corrected reflectance and corrected
transmittance (the reflectance incremented by `T*T*R/(1 - R*R)` when
`R < 1`, the transmittance then set to `1 - R`) sum to 1. -/
theorem thinDielectric_R_plus_T_one (M : MathModel) (eta cosTheta_i : ℚ)
    (_h1 : 0 < cosTheta_i) (_h2 : cosTheta_i ≤ 1) :
    (thinDielectricRT (frDielectric M cosTheta_i eta)).1 +
      (thinDielectricRT (frDielectric M cosTheta_i eta)).2 = 1 := by
  generalize frDielectric M cosTheta_i eta = R0
  by_cases h : R0 < 1
  · simp only [thinDielectricRT, if_pos h]
    ring
  · simp only [thinDielectricRT, if_neg h]
    ring

theorem thinDielectric_R_plus_T_one_witness :
    0 < (1 : ℚ) ∧ (1 : ℚ) ≤ 1 ∧
      (thinDielectricRT (frDielectric concreteModel 1 2)).1 +
        (thinDielectricRT (frDielectric concreteModel 1 2)).2 = 1 :=
  ⟨by norm_num, by norm_num,
    thinDielectric_R_plus_T_one concreteModel 2 1 (by norm_num) (by norm_num)⟩

/-- C8: the purely specular variants (smooth specular transmission, smooth
specular reflection, thin dielectric, and the conductor when its
microfacet distribution is effectively smooth) return a density of
exactly 0 from `PDF` for all direction pairs and all sample flags. -/
theorem specular_variants_pdf_zero (M : MathModel) (Bt : SpecularTransmissionBxDF)
    (Br : SpecularReflectionBxDF) (Bd : ThinDielectricBxDF) (C : ConductorBxDF)
    (wo wi : Vec3) (mode : TransportMode) (sampleFlags : ReflTransFlags)
    (hsmooth : C.mfDistrib.effectivelySmooth = true) :
    Bt.PDF wo wi mode sampleFlags = 0 ∧ Br.PDF wo wi mode sampleFlags = 0 ∧
      Bd.PDF wo wi mode sampleFlags = 0 ∧ C.PDF M wo wi mode sampleFlags = 0 := by
  refine ⟨rfl, rfl, rfl, ?_⟩
  unfold ConductorBxDF.PDF
  split
  · rfl
  split
  · rfl
  simp [hsmooth]

theorem specular_variants_pdf_zero_witness :
    smoothConductor.mfDistrib.effectivelySmooth = true ∧
      SpecularTransmissionBxDF.PDF ⟨2, Spectrum.ofRat 1⟩ ⟨0, 0, 1⟩ ⟨0, 0, 1⟩
          TransportMode.Radiance ReflTransFlags.all = 0 ∧
      SpecularReflectionBxDF.PDF ⟨2, Spectrum.ofRat 1⟩ ⟨0, 0, 1⟩ ⟨0, 0, 1⟩
          TransportMode.Radiance ReflTransFlags.all = 0 ∧
      ThinDielectricBxDF.PDF ⟨2⟩ ⟨0, 0, 1⟩ ⟨0, 0, 1⟩
          TransportMode.Radiance ReflTransFlags.all = 0 ∧
      smoothConductor.PDF concreteModel ⟨0, 0, 1⟩ ⟨0, 0, 1⟩
          TransportMode.Radiance ReflTransFlags.all = 0 :=
  ⟨rfl, specular_variants_pdf_zero concreteModel ⟨2, Spectrum.ofRat 1⟩ ⟨2, Spectrum.ofRat 1⟩
    ⟨2⟩ smoothConductor ⟨0, 0, 1⟩ ⟨0, 0, 1⟩ TransportMode.Radiance ReflTransFlags.all rfl⟩

/-- C9: the ideal-diffuse variant with reflectance `R = (1/2, 1/2, 1/2)`
evaluated at `wo = wi = (0, 0, 1)` returns exactly `R/pi`, and its `PDF`
with all lobes requested returns exactly `1/pi` (the cosine-weighted
hemisphere density at cosine 1). -/
theorem idealDiffuse_normal_incidence (M : MathModel) (mode : TransportMode) :
    IdealDiffuseBxDF.f M ⟨Spectrum.ofRat (1 / 2)⟩ ⟨0, 0, 1⟩ ⟨0, 0, 1⟩ mode
        = Spectrum.ofRat ((1 / 2) / M.pi)
      ∧ IdealDiffuseBxDF.PDF M ⟨Spectrum.ofRat (1 / 2)⟩ ⟨0, 0, 1⟩ ⟨0, 0, 1⟩ mode
          ReflTransFlags.all = 1 / M.pi := by
  constructor
  · unfold IdealDiffuseBxDF.f
    rw [if_neg (by decide)]
    unfold Spectrum.scale Spectrum.ofRat
    congr 1 <;> ring
  · unfold IdealDiffuseBxDF.PDF cosineHemispherePDF absCosTheta
    rw [if_neg (by decide)]
    show |(1 : ℚ)| * (1 / M.pi) = 1 / M.pi
    rw [abs_one, one_mul]

/-- C10 (evaluation at the failing input): a `TopOrBottomBxDF` set up by
either assignment operator has exactly one non-null pointer; its `f`,
`Sample_f`, `PDF` and `Flags` read only the non-null side, but
`getDiffuseReflectance` unconditionally reads through both pointers and
therefore dereferences the null one (modelled as `none`). -/
theorem topOrBottom_getDiffuseReflectance_null_deref (t b : AbsBxDF) :
    (TopOrBottomBxDF.assignTop t).getDiffuseReflectance = none
      ∧ (TopOrBottomBxDF.assignBottom b).getDiffuseReflectance = none
      ∧ (∀ wo wi mode, (TopOrBottomBxDF.assignTop t).fOp wo wi mode
          = some (t.f wo wi mode))
      ∧ (∀ wo wi mode, (TopOrBottomBxDF.assignBottom b).fOp wo wi mode
          = some (b.f wo wi mode))
      ∧ (∀ wo uc u mode fl, (TopOrBottomBxDF.assignTop t).sampleOp wo uc u mode fl
          = some (t.sample_f wo uc u mode fl))
      ∧ (∀ wo wi mode fl, (TopOrBottomBxDF.assignTop t).pdfOp wo wi mode fl
          = some (t.pdf wo wi mode fl))
      ∧ (TopOrBottomBxDF.assignTop t).flagsOp = some t.flags :=
  ⟨rfl, rfl, fun _ _ _ => rfl, fun _ _ _ => rfl, fun _ _ _ _ _ => rfl,
    fun _ _ _ _ => rfl, rfl⟩

/-- C7 (amended): with transmission among the requested lobes,
`SpecularTransmissionBxDF::Sample_f` returns an absent result exactly
when total internal reflection occurs for `wo` (the `Refract` failure for
the relative index `etap`), or when `wo` is exactly grazing
(`wo.z = 0`). -/
theorem specTrans_absent_iff_tir (M : MathModel) (B : SpecularTransmissionBxDF)
    (wo : Vec3) (uc : ℚ) (u : ℚ × ℚ) (mode : TransportMode)
    (sampleFlags : ReflTransFlags) (ht : sampleFlags.transmission = true) :
    B.sample_f M wo uc u mode sampleFlags = none ↔
      (wo.z = 0 ∨
        refract M wo (faceforward ⟨0, 0, 1⟩ wo)
          (if 0 < wo.z then B.eta else 1 / B.eta) = none) := by
  simp only [SpecularTransmissionBxDF.sample_f]
  by_cases hz : wo.z = 0
  · simp [hz]
  · rw [if_neg hz]
    rw [if_neg (by simp [ht])]
    cases hr : refract M wo (faceforward ⟨0, 0, 1⟩ wo)
        (if 0 < wo.z then B.eta else 1 / B.eta) with
    | none => simp [hz]
    | some wi => simp [hz]

theorem specTrans_absent_iff_tir_witness :
    ReflTransFlags.all.transmission = true ∧
      (SpecularTransmissionBxDF.sample_f concreteModel
          (mkSpecularTransmissionBxDF (1 / 2) (Spectrum.ofRat 1)) ⟨1, 0, 0⟩ 0 (0, 0)
          TransportMode.Importance ReflTransFlags.all = none ↔
        ((⟨1, 0, 0⟩ : Vec3).z = 0 ∨
          refract concreteModel ⟨1, 0, 0⟩ (faceforward ⟨0, 0, 1⟩ ⟨1, 0, 0⟩)
            (if 0 < (⟨1, 0, 0⟩ : Vec3).z then (mkSpecularTransmissionBxDF (1 / 2)
              (Spectrum.ofRat 1)).eta
             else 1 / (mkSpecularTransmissionBxDF (1 / 2) (Spectrum.ofRat 1)).eta) = none)) :=
  ⟨rfl, specTrans_absent_iff_tir concreteModel
    (mkSpecularTransmissionBxDF (1 / 2) (Spectrum.ofRat 1)) ⟨1, 0, 0⟩ 0 (0, 0)
    TransportMode.Importance ReflTransFlags.all rfl⟩

/-- C7 (counterexample to the claim as stated): at the grazing direction
`wo = (1, 0, 0)` with relative index `1/2`, `Sample_f` returns an absent
result although no total internal reflection occurs (the refraction with
the applicable relative index `etap = 2` succeeds). -/
theorem specTrans_grazing_counterexample :
    SpecularTransmissionBxDF.sample_f concreteModel
        (mkSpecularTransmissionBxDF (1 / 2) (Spectrum.ofRat 1)) ⟨1, 0, 0⟩ 0 (0, 0)
        TransportMode.Importance ReflTransFlags.all = none
      ∧ refract concreteModel ⟨1, 0, 0⟩ (faceforward ⟨0, 0, 1⟩ ⟨1, 0, 0⟩) 2 ≠ none :=
  ⟨by decide, by decide⟩

/-- C3 (amended): in both random walks of the layered engine, the
Russian-roulette test fires exactly when the depth exceeds 3 and the
walk's throughput ratio falls below the absolute constant 1/4 (not a
quarter of the walk's own starting throughput); on survival, the `f` walk
divides the throughput by `1 - q` while the `Sample_f` walk multiplies
the accumulated density by `1 - q`. -/
theorem layered_rr_condition (L : LayeredBxDF) (M : MathModel) (phase : PhaseFunction)
    (stream : ℕ → ℚ) (wo wiT : Vec3) (mode : TransportMode) (flipWi : Bool)
    (exitI nonExitI : AbsBxDF) (exitZ : ℚ) (wis : BSDFSample)
    (fuel depth : ℕ) (stS : SState) (stF : FState) :
    (L.sampleWalk M phase stream wo mode flipWi (fuel + 1) depth stS =
      (let rrBeta := stS.f.maxComponent / stS.pdf
       if 3 < depth ∧ rrBeta < 1 / 4 then
         let q := max 0 (1 - rrBeta)
         if rDraw stream stS.n < q then none
         else
           L.sampleWalkRest M phase stream wo mode flipWi
             (L.sampleWalk M phase stream wo mode flipWi fuel (depth + 1))
             { stS with pdf := stS.pdf * (1 - q), n := stS.n + 1 }
       else
         L.sampleWalkRest M phase stream wo mode flipWi
           (L.sampleWalk M phase stream wo mode flipWi fuel (depth + 1)) stS))
    ∧ (L.fWalk M phase stream mode wiT exitI nonExitI exitZ wis (fuel + 1) depth stF =
      (if 3 < depth ∧ stF.beta.maxComponent < 1 / 4 then
         let q := max 0 (1 - stF.beta.maxComponent)
         if rDraw stream stF.n < q then (stF.fAcc, stF.n + 1)
         else
           L.fWalkRest M phase stream mode wiT exitI nonExitI exitZ wis
             (L.fWalk M phase stream mode wiT exitI nonExitI exitZ wis fuel (depth + 1))
             { stF with beta := stF.beta.divScalar (1 - q), n := stF.n + 1 }
       else
         L.fWalkRest M phase stream mode wiT exitI nonExitI exitZ wis
           (L.fWalk M phase stream mode wiT exitI nonExitI exitZ wis fuel (depth + 1)) stF)) :=
  ⟨rfl, rfl⟩

/-- C3 (counterexample to the claim as stated): a concrete `Sample_f`
walk that survives its depth-4 Russian-roulette test with `q = 31/32` and
every interface density equal to 1 returns the density `1/32 = 1 - q`;
the claim's rescale by `1/(1-q)` would give 32. -/
theorem layered_rr_pdf_counterexample :
    Option.map BSDFSample.pdf
        (probeLayered.sample_f concreteModel phaseInert probeFam hashDir0 hashU0 0
          ⟨0, 0, 1⟩ (1 / 2) (1 / 2, 1 / 2) TransportMode.Radiance) = some (1 / 32)
      ∧ ((1 : ℚ) / 32) ≠ 1 * (1 / (1 - 31 / 32)) ∧
      specRRTriggered 4 (1 / 32) (1 / 2) = true :=
  ⟨by decide, by decide, by decide⟩

/-- C4: each of the three layered-engine operations consumes randomness
only through the stream the call derives by hashing the process seed with
its own (already flipped) arguments: two random-number families that
agree on that one seeded stream give bit-for-bit identical results. -/
theorem layered_determinism (L : LayeredBxDF) (M : MathModel) (phase : PhaseFunction)
    (fam fam2 : ℕ → ℕ → ℕ → ℚ) (hashDir : ℕ → Vec3 → ℕ) (hashU : ℚ → ℚ × ℚ → ℕ)
    (hashW : Vec3 → ℕ) (seed : ℕ) (wo0 wi0 : Vec3) (uc : ℚ) (u : ℚ × ℚ)
    (mode : TransportMode) :
    (let wo := if L.config.twoSided && decide (wo0.z < 0) then -wo0 else wo0
     let wi := if L.config.twoSided && decide (wo0.z < 0) then -wi0 else wi0
     ((∀ n, fam (hashDir seed wo) (hashU uc u) n = fam2 (hashDir seed wo) (hashU uc u) n) →
        L.sample_f M phase fam hashDir hashU seed wo0 uc u mode =
          L.sample_f M phase fam2 hashDir hashU seed wo0 uc u mode)
     ∧ ((∀ n, fam (hashDir seed wo) (hashW wi) n = fam2 (hashDir seed wo) (hashW wi) n) →
        L.fEval M phase fam hashDir hashW seed wo0 wi0 mode =
          L.fEval M phase fam2 hashDir hashW seed wo0 wi0 mode)
     ∧ ((∀ n, fam (hashDir seed wo) (hashW wi) n = fam2 (hashDir seed wo) (hashW wi) n) →
        L.pdfEval M fam hashDir hashW seed wo0 wi0 mode =
          L.pdfEval M fam2 hashDir hashW seed wo0 wi0 mode)) := by
  refine ⟨fun h => ?_, fun h => ?_, fun h => ?_⟩
  · exact congrArg (fun s => L.sampleFStream M phase s wo0 uc u mode) (funext h)
  · exact congrArg (fun s => L.fStream M phase s wo0 wi0 mode) (funext h)
  · exact congrArg (fun s => L.pdfStream M s wo0 wi0 mode) (funext h)

theorem layered_determinism_witness :
    probeLayered.sample_f concreteModel phaseInert probeFam hashDir0 hashU0 0
        ⟨0, 0, 1⟩ (1 / 2) (1 / 2, 1 / 2) TransportMode.Radiance =
      probeLayered.sample_f concreteModel phaseInert (fun _a _b n => probeStream n)
        hashDir0 hashU0 0 ⟨0, 0, 1⟩ (1 / 2) (1 / 2, 1 / 2) TransportMode.Radiance :=
  (layered_determinism probeLayered concreteModel phaseInert probeFam
    (fun _a _b n => probeStream n) hashDir0 hashU0 hashW0 0 ⟨0, 0, 1⟩ ⟨0, 0, 1⟩
    (1 / 2) (1 / 2, 1 / 2) TransportMode.Radiance).1 (fun _n => rfl)

theorem pdfTRT_nonneg (rI tI : AbsBxDF) (stream : ℕ → ℚ) (wo wi : Vec3)
    (mode : TransportMode) (n : ℕ)
    (hr : ∀ a b m fl, 0 ≤ rI.pdf a b m fl) (ht : ∀ a b m fl, 0 ≤ tI.pdf a b m fl) :
    0 ≤ (LayeredBxDF.pdfTRT rI tI stream wo wi mode n).1 := by
  unfold LayeredBxDF.pdfTRT
  dsimp only
  cases tI.sample_f wo (rDraw stream n) (rDraw stream (n + 1), rDraw stream (n + 2))
      mode ReflTransFlags.transmissionOnly with
  | none => exact le_refl 0
  | some wos =>
    cases tI.sample_f wi (rDraw stream (n + 3))
        (rDraw stream (n + 4), rDraw stream (n + 5)) mode.flip
        ReflTransFlags.transmissionOnly with
    | none => exact le_refl 0
    | some wis =>
      dsimp only
      split
      · split
        · exact hr _ _ _ _
        · cases rI.sample_f (-wos.wi) (rDraw stream (n + 6))
              (rDraw stream (n + 7), rDraw stream (n + 8)) mode ReflTransFlags.all with
          | none => exact le_refl 0
          | some rs =>
            dsimp only
            split
            · exact le_refl 0
            · split
              · exact ht _ _ _ _
              · exact add_nonneg
                  (mul_nonneg (powerHeuristic_nonneg _ _ _ _) (ht _ _ _ _))
                  (mul_nonneg (powerHeuristic_nonneg _ _ _ _) (hr _ _ _ _))
      · exact le_refl 0

theorem pdfTT_nonneg (toI tiI : AbsBxDF) (stream : ℕ → ℚ) (wo wi : Vec3)
    (mode : TransportMode) (n : ℕ)
    (ho : ∀ a b m fl, 0 ≤ toI.pdf a b m fl) (hi : ∀ a b m fl, 0 ≤ tiI.pdf a b m fl) :
    0 ≤ (LayeredBxDF.pdfTT toI tiI stream wo wi mode n).1 := by
  unfold LayeredBxDF.pdfTT
  cases toI.sample_f wo (rDraw stream n) (rDraw stream (n + 1), rDraw stream (n + 2))
      mode ReflTransFlags.all with
  | none => exact le_refl 0
  | some wos =>
    dsimp only
    split
    · exact le_refl 0
    · cases tiI.sample_f wi (rDraw stream (n + 3))
          (rDraw stream (n + 4), rDraw stream (n + 5)) mode.flip ReflTransFlags.all with
      | none => exact le_refl 0
      | some wis =>
        dsimp only
        split
        · exact le_refl 0
        · split
          · exact hi _ _ _ _
          · split
            · exact ho _ _ _ _
            · exact div_nonneg (add_nonneg (ho _ _ _ _) (hi _ _ _ _)) (by norm_num)

theorem pdfBodyAux_nonneg (L : LayeredBxDF) (stream : ℕ → ℚ) (wo wi : Vec3)
    (mode : TransportMode) (enteredTop : Bool) (n : ℕ)
    (htop : ∀ a b m fl, 0 ≤ L.top.pdf a b m fl)
    (hbot : ∀ a b m fl, 0 ≤ L.bottom.pdf a b m fl) :
    0 ≤ (L.pdfBodyAux stream wo wi mode enteredTop n).1 := by
  unfold LayeredBxDF.pdfBodyAux
  split
  · cases enteredTop with
    | false => exact pdfTRT_nonneg _ _ _ _ _ _ _ htop hbot
    | true => exact pdfTRT_nonneg _ _ _ _ _ _ _ hbot htop
  · cases enteredTop with
    | false => exact pdfTT_nonneg _ _ _ _ _ _ _ hbot htop
    | true => exact pdfTT_nonneg _ _ _ _ _ _ _ htop hbot

theorem pdfLoop_nonneg (L : LayeredBxDF) (stream : ℕ → ℚ) (wo wi : Vec3)
    (mode : TransportMode) (enteredTop : Bool)
    (htop : ∀ a b m fl, 0 ≤ L.top.pdf a b m fl)
    (hbot : ∀ a b m fl, 0 ≤ L.bottom.pdf a b m fl) :
    ∀ (k : ℕ) (acc : ℚ × ℕ), 0 ≤ acc.1 →
      0 ≤ (L.pdfLoop stream wo wi mode enteredTop k acc).1 := by
  intro k
  induction k with
  | zero => exact fun acc h => h
  | succ k ih =>
    intro acc h
    exact ih _ (add_nonneg h (pdfBodyAux_nonneg L stream wo wi mode enteredTop acc.2 htop hbot))


/-- C2: `LayeredBxDF::PDF` returns exactly
`0.1 * (1/(4 pi)) + 0.9 * (pdfSum / nSamples)`, the blend of the constant
fallback with the averaged stochastic TRT/TT estimate accumulated by the
loop (including the entrance-reflection density term), and, whenever the
two interface densities are nonnegative (the scattering contract), the
returned density is strictly positive (and, in exact arithmetic,
finite). -/
theorem layered_pdf_blend (L : LayeredBxDF) (M : MathModel) (stream : ℕ → ℚ)
    (wo0 wi0 : Vec3) (mode : TransportMode) (hpi : 0 < M.pi)
    (htop : ∀ a b m fl, 0 ≤ L.top.pdf a b m fl)
    (hbot : ∀ a b m fl, 0 ≤ L.bottom.pdf a b m fl) :
    (let flipped := L.config.twoSided && decide (wo0.z < 0)
     let wo := if flipped then -wo0 else wo0
     let wi := if flipped then -wi0 else wi0
     let enteredTop := decide (0 < wo.z)
     let pdfSum0 :=
       if 0 < wo.z * wi.z then
         (L.config.nSamples : ℚ) *
           (if enteredTop then L.top.pdf wo wi mode ReflTransFlags.reflectionOnly
            else L.bottom.pdf wo wi mode ReflTransFlags.reflectionOnly)
       else 0
     L.pdfStream M stream wo0 wi0 mode =
       (1 / 10) * (1 / (4 * M.pi)) +
         (9 / 10) *
           ((L.pdfLoop stream wo wi mode enteredTop L.config.nSamples (pdfSum0, 0)).1 /
             (L.config.nSamples : ℚ)))
    ∧ 0 < L.pdfStream M stream wo0 wi0 mode := by
  constructor
  · unfold LayeredBxDF.pdfStream lerp
    dsimp only
    norm_num
  · unfold LayeredBxDF.pdfStream lerp
    dsimp only
    apply add_pos_of_pos_of_nonneg
    · exact mul_pos (by norm_num) (div_pos one_pos (by linarith))
    · apply mul_nonneg (by norm_num)
      apply div_nonneg _ (Nat.cast_nonneg _)
      apply pdfLoop_nonneg L stream _ _ mode _ htop hbot
      dsimp only
      repeat' split
      all_goals
        first
        | exact le_refl 0
        | exact mul_nonneg (by positivity) (htop _ _ _ _)
        | exact mul_nonneg (by positivity) (hbot _ _ _ _)

theorem layered_pdf_blend_witness :
    0 < unitLayered.pdfStream concreteModel probeStream ⟨0, 0, 1⟩ ⟨0, 0, 1⟩
      TransportMode.Radiance :=
  (layered_pdf_blend unitLayered concreteModel probeStream ⟨0, 0, 1⟩ ⟨0, 0, 1⟩
    TransportMode.Radiance (by norm_num [concreteModel])
    (fun _ _ _ _ => (zero_le_one : (0 : ℚ) ≤ 1))
    (fun _ _ _ _ => (zero_le_one : (0 : ℚ) ≤ 1))).2

theorem sampleInterface_tag (L : LayeredBxDF) (stream : ℕ → ℚ) (wo : Vec3)
    (mode : TransportMode) (flipWi : Bool) (recurse : SState → Option BSDFSample)
    (hrec : ∀ st s, recurse st = some s → s.flags =
      (if 0 < wo.z * (if flipWi then -s.wi else s.wi).z then BxDFFlags.glossyReflection
       else BxDFFlags.glossyTransmission)) :
    ∀ st s, L.sampleInterface stream wo mode flipWi recurse st = some s →
      s.flags = (if 0 < wo.z * (if flipWi then -s.wi else s.wi).z
        then BxDFFlags.glossyReflection else BxDFFlags.glossyTransmission) := by
  intro st s h
  unfold LayeredBxDF.sampleInterface at h
  dsimp only at h
  cases hbs : (if st.z = 0 then L.bottom else L.top).sample_f (-st.w) (rDraw stream st.n)
      (rDraw stream (st.n + 1), rDraw stream (st.n + 2)) mode ReflTransFlags.all with
  | none =>
    rw [hbs] at h
    exact Option.noConfusion h
  | some bs =>
    rw [hbs] at h
    dsimp only at h
    by_cases hdeg : (bs.f.isZero = true ∨ bs.pdf = 0 ∨ bs.wi.z = 0)
    · rw [if_pos hdeg] at h
      exact Option.noConfusion h
    · rw [if_neg hdeg] at h
      by_cases htr : bs.IsTransmission = true
      · rw [if_pos htr] at h
        have hx := Option.some.inj h
        subst hx
        cases flipWi with
        | false => simp
        | true => simp [Vec3.neg_neg]
      · rw [if_neg htr] at h
        exact hrec _ _ h

theorem sampleWalkRest_tag (L : LayeredBxDF) (M : MathModel) (phase : PhaseFunction)
    (stream : ℕ → ℚ) (wo : Vec3) (mode : TransportMode) (flipWi : Bool)
    (recurse : SState → Option BSDFSample)
    (hrec : ∀ st s, recurse st = some s → s.flags =
      (if 0 < wo.z * (if flipWi then -s.wi else s.wi).z then BxDFFlags.glossyReflection
       else BxDFFlags.glossyTransmission)) :
    ∀ st s, L.sampleWalkRest M phase stream wo mode flipWi recurse st = some s →
      s.flags = (if 0 < wo.z * (if flipWi then -s.wi else s.wi).z
        then BxDFFlags.glossyReflection else BxDFFlags.glossyTransmission) := by
  intro st s h
  unfold LayeredBxDF.sampleWalkRest at h
  dsimp only at h
  by_cases hw : st.w.z = 0
  · rw [if_pos hw] at h
    exact Option.noConfusion h
  · rw [if_neg hw] at h
    by_cases ha : ¬ L.albedo.isZero = true
    · rw [if_pos ha] at h
      by_cases hzp : (if 0 < st.w.z
          then st.z + sampleExponential M (rDraw stream st.n) (1 / absCosTheta st.w)
          else st.z - sampleExponential M (rDraw stream st.n) (1 / absCosTheta st.w)) = st.z
      · rw [if_pos hzp] at h
        exact Option.noConfusion h
      · rw [if_neg hzp] at h
        by_cases hin : (0 < (if 0 < st.w.z
            then st.z + sampleExponential M (rDraw stream st.n) (1 / absCosTheta st.w)
            else st.z - sampleExponential M (rDraw stream st.n) (1 / absCosTheta st.w))
          ∧ (if 0 < st.w.z
            then st.z + sampleExponential M (rDraw stream st.n) (1 / absCosTheta st.w)
            else st.z - sampleExponential M (rDraw stream st.n) (1 / absCosTheta st.w)) < L.thickness)
        · rw [if_pos hin] at h
          cases hps : phase.sample_p (-st.w)
              (rDraw stream (st.n + 1), rDraw stream (st.n + 2)) with
          | none =>
            rw [hps] at h
            exact Option.noConfusion h
          | some ps =>
            rw [hps] at h
            dsimp only at h
            by_cases hpd : (ps.pdf = 0 ∨ ps.wi.z = 0)
            · rw [if_pos hpd] at h
              exact Option.noConfusion h
            · rw [if_neg hpd] at h
              exact hrec _ _ h
        · rw [if_neg hin] at h
          exact sampleInterface_tag L stream wo mode flipWi recurse hrec _ _ h
    · rw [if_neg ha] at h
      exact sampleInterface_tag L stream wo mode flipWi recurse hrec _ _ h

theorem sampleWalk_tag (L : LayeredBxDF) (M : MathModel) (phase : PhaseFunction)
    (stream : ℕ → ℚ) (wo : Vec3) (mode : TransportMode) (flipWi : Bool) :
    ∀ (fuel depth : ℕ) (st : SState) (s : BSDFSample),
      L.sampleWalk M phase stream wo mode flipWi fuel depth st = some s →
      s.flags = (if 0 < wo.z * (if flipWi then -s.wi else s.wi).z
        then BxDFFlags.glossyReflection else BxDFFlags.glossyTransmission) := by
  intro fuel
  induction fuel with
  | zero =>
    intro depth st s h
    exact Option.noConfusion h
  | succ fuel ih =>
    intro depth st s h
    unfold LayeredBxDF.sampleWalk at h
    dsimp only at h
    by_cases hc : (3 < depth ∧ st.f.maxComponent / st.pdf < 1 / 4)
    · rw [if_pos hc] at h
      by_cases hq : rDraw stream st.n < max 0 (1 - st.f.maxComponent / st.pdf)
      · rw [if_pos hq] at h
        exact Option.noConfusion h
      · rw [if_neg hq] at h
        exact sampleWalkRest_tag L M phase stream wo mode flipWi _
          (fun st2 s2 h2 => ih (depth + 1) st2 s2 h2) _ _ h
    · rw [if_neg hc] at h
      exact sampleWalkRest_tag L M phase stream wo mode flipWi _
        (fun st2 s2 h2 => ih (depth + 1) st2 s2 h2) _ _ h

/-- C1 (amended): whenever `LayeredBxDF::Sample_f` (with `sampleFlags =
All`) returns a result, either it is the entrance interface's own
reflection sample returned by the early shortcut (carrying that
interface's own lobe flags, up to the two-sided flip of `wi`), or it is a
random-walk exit tagged glossy-reflection exactly when the returned
direction lies on the same hemisphere as the entry direction and
glossy-transmission otherwise; and the walk returns an absent result once
its `maxDepth` fuel is exhausted (each degenerate step inside the walk
also yields `none`, per the walk lemmas above). -/
theorem layered_sample_tagging (L : LayeredBxDF) (M : MathModel) (phase : PhaseFunction)
    (fam : ℕ → ℕ → ℕ → ℚ) (hashDir : ℕ → Vec3 → ℕ) (hashU : ℚ → ℚ × ℚ → ℕ)
    (seed : ℕ) (wo0 : Vec3) (uc : ℚ) (u : ℚ × ℚ) (mode : TransportMode) :
    (let flipWi := L.config.twoSided && decide (wo0.z < 0)
     let wo := if flipWi then -wo0 else wo0
     (∀ s, L.sample_f M phase fam hashDir hashU seed wo0 uc u mode = some s →
        (∃ bs, (if 0 < wo.z then L.top.sample_f wo uc u mode ReflTransFlags.all
                else L.bottom.sample_f wo uc u mode ReflTransFlags.all) = some bs
            ∧ bs.IsReflection = true
            ∧ s = { bs with wi := if flipWi then -bs.wi else bs.wi })
        ∨ s.flags = (if 0 < wo0.z * s.wi.z then BxDFFlags.glossyReflection
                     else BxDFFlags.glossyTransmission))
     ∧ (∀ (stream : ℕ → ℚ) (depth : ℕ) (st : SState),
          L.sampleWalk M phase stream wo mode flipWi 0 depth st = none)) := by
  dsimp only
  constructor
  · intro s h
    unfold LayeredBxDF.sample_f LayeredBxDF.sampleFStream at h
    dsimp only at h
    cases hbs : (if 0 < (if (L.config.twoSided && decide (wo0.z < 0)) = true
          then -wo0 else wo0).z
        then L.top.sample_f (if (L.config.twoSided && decide (wo0.z < 0)) = true
          then -wo0 else wo0) uc u mode ReflTransFlags.all
        else L.bottom.sample_f (if (L.config.twoSided && decide (wo0.z < 0)) = true
          then -wo0 else wo0) uc u mode ReflTransFlags.all) with
    | none =>
      rw [hbs] at h
      exact Option.noConfusion h
    | some bs =>
      rw [hbs] at h
      dsimp only at h
      by_cases hdeg : (bs.f.isZero = true ∨ bs.pdf = 0 ∨ bs.wi.z = 0)
      · rw [if_pos hdeg] at h
        exact Option.noConfusion h
      · rw [if_neg hdeg] at h
        by_cases hrefl : bs.IsReflection = true
        · rw [if_pos hrefl] at h
          exact Or.inl ⟨bs, rfl, hrefl, (Option.some.inj h).symm⟩
        · rw [if_neg hrefl] at h
          refine Or.inr ?_
          have htag := sampleWalk_tag L M phase _ _ mode _ _ 0 _ s h
          rcases Bool.eq_false_or_eq_true (L.config.twoSided && decide (wo0.z < 0))
              with hb | hb
          · rw [hb] at htag
            simpa [Vec3.neg_z, neg_mul_neg] using htag
          · rw [hb] at htag
            simpa using htag
  · exact fun stream depth st => rfl

theorem layered_sample_tagging_witness :
    (probeLayered.sample_f concreteModel phaseInert probeFam hashDir0 hashU0 0
        ⟨0, 0, 1⟩ (1 / 2) (1 / 2, 1 / 2) TransportMode.Radiance = some probeOut)
    ∧ ((let flipWi := probeLayered.config.twoSided && decide ((⟨0, 0, 1⟩ : Vec3).z < 0)
        let wo := if flipWi then -(⟨0, 0, 1⟩ : Vec3) else ⟨0, 0, 1⟩
        (∃ bs, (if 0 < wo.z
              then probeLayered.top.sample_f wo (1 / 2) (1 / 2, 1 / 2)
                TransportMode.Radiance ReflTransFlags.all
              else probeLayered.bottom.sample_f wo (1 / 2) (1 / 2, 1 / 2)
                TransportMode.Radiance ReflTransFlags.all) = some bs
            ∧ bs.IsReflection = true
            ∧ probeOut = { bs with wi := if flipWi then -bs.wi else bs.wi })
        ∨ probeOut.flags = (if 0 < (⟨0, 0, 1⟩ : Vec3).z * probeOut.wi.z
            then BxDFFlags.glossyReflection else BxDFFlags.glossyTransmission))) :=
  ⟨by decide,
    (layered_sample_tagging probeLayered concreteModel phaseInert probeFam hashDir0
      hashU0 0 ⟨0, 0, 1⟩ (1 / 2) (1 / 2, 1 / 2) TransportMode.Radiance).1 probeOut
      (by decide)⟩

/-- C1 (counterexample to the claim as stated): a layered material whose
entrance interface answers with a specular mirror reflection returns that
entry sample unchanged from `Sample_f`: the result lies on the same
hemisphere as the entry direction but is tagged specular-reflection, not
glossy-reflection. -/
theorem layered_entry_flags_counterexample :
    Option.map BSDFSample.flags
        (mirrorLayered.sample_f concreteModel phaseInert probeFam hashDir0 hashU0 0
          ⟨0, 0, 1⟩ (1 / 2) (1 / 2, 1 / 2) TransportMode.Radiance)
        = some BxDFFlags.specularReflection
      ∧ Option.map BSDFSample.wi
          (mirrorLayered.sample_f concreteModel phaseInert probeFam hashDir0 hashU0 0
            ⟨0, 0, 1⟩ (1 / 2) (1 / 2, 1 / 2) TransportMode.Radiance)
          = some ⟨0, 0, 1⟩
      ∧ BxDFFlags.specularReflection ≠ BxDFFlags.glossyReflection :=
  ⟨by decide, by decide, by decide⟩

theorem Vec3.add_comm (a b : Vec3) : a + b = b + a := by
  show Vec3.add a b = Vec3.add b a
  unfold Vec3.add
  congr 1 <;> ring

theorem cosDPhi_comm (M : MathModel) (a b : Vec3) : cosDPhi M a b = cosDPhi M b a := by
  unfold cosDPhi
  dsimp only
  rw [show b.x * a.x + b.y * a.y = a.x * b.x + a.y * b.y by ring,
    mul_comm (b.x ^ 2 + b.y ^ 2) (a.x ^ 2 + a.y ^ 2)]
  exact if_congr or_comm rfl rfl

theorem idealDiffuse_f_comm (M : MathModel) (B : IdealDiffuseBxDF) (wo wi : Vec3)
    (mode : TransportMode) : B.f M wo wi mode = B.f M wi wo mode := by
  unfold IdealDiffuseBxDF.f
  rw [mul_comm wi.z wo.z]

theorem diffuse_f_comm (M : MathModel) (D : DiffuseBxDF) (wo wi : Vec3)
    (mode : TransportMode) : D.f M wo wi mode = D.f M wi wo mode := by
  unfold DiffuseBxDF.f
  dsimp only
  rw [mul_comm wi.z wo.z, cosDPhi_comm M wo wi]
  rcases lt_trichotomy (absCosTheta wi) (absCosTheta wo) with hlt | heq | hgt
  · simp only [if_neg (not_lt.mpr hlt.le), if_pos hlt]
  · simp only [if_neg (not_lt.mpr heq.le), if_neg (not_lt.mpr heq.ge)]
    rw [heq]
    have hx : D.A + D.B * max 0 (cosDPhi M wi wo) * sinTheta M wi *
        (sinTheta M wo / absCosTheta wo) =
        D.A + D.B * max 0 (cosDPhi M wi wo) * sinTheta M wo *
        (sinTheta M wi / absCosTheta wo) := by ring
    rw [hx]
  · simp only [if_pos hgt, if_neg (not_lt.mpr hgt.le)]

theorem dot_normalize (M : MathModel) (a v : Vec3) :
    dot a (normalize M v) = dot a v / M.sqrt (lenSq v) := by
  unfold normalize dot
  dsimp only
  ring

theorem conductor_f_comm (M : MathModel) (frC : ℚ → Spectrum → Spectrum → Spectrum)
    (C : ConductorBxDF) (wo wi : Vec3) (mode : TransportMode)
    (hG : ∀ a b, C.mfDistrib.G a b = C.mfDistrib.G b a)
    (hwo : lenSq wo = 1) (hwi : lenSq wi = 1) :
    C.f M frC wo wi mode = C.f M frC wi wo mode := by
  have hd : dot wo (wi + wo) = dot wi (wi + wo) := by
    unfold lenSq dot at hwo hwi
    show dot wo (Vec3.add wi wo) = dot wi (Vec3.add wi wo)
    unfold dot Vec3.add
    dsimp only
    linear_combination hwo - hwi
  have hdn : absDot wo (normalize M (wi + wo)) = absDot wi (normalize M (wi + wo)) := by
    unfold absDot
    rw [dot_normalize, dot_normalize, hd]
  unfold ConductorBxDF.f
  dsimp only
  rw [mul_comm wi.z wo.z, Vec3.add_comm wo wi, hG wi wo, hdn,
    show (4 : ℚ) * absCosTheta wo * absCosTheta wi = 4 * absCosTheta wi * absCosTheta wo
      by ring]
  exact if_congr Iff.rfl rfl (if_congr Iff.rfl rfl (if_congr or_comm rfl rfl))

/-- C5 (amended): Helmholtz reciprocity `f(wo, wi) = f(wi, wo)` holds, at
every fixed transport mode, for the non-layered non-fiber variants whose
evaluation body is in this header: ideal diffuse, rough (Oren--Nayar)
diffuse, the conductor (for unit directions, given the symmetric
shadowing-masking term of the external microfacet distribution), and the
smooth specular reflection/transmission and thin-dielectric variants
(whose `f` is identically zero).  It does not hold for the
normalized-Fresnel variant, whose value depends only on `wi`'s cosine
(see the counterexample); the measured variant's evaluation body is not
part of this header. -/
theorem nonlayered_reciprocity (M : MathModel) :
    (∀ (B : IdealDiffuseBxDF) (wo wi : Vec3) (mode : TransportMode),
        B.f M wo wi mode = B.f M wi wo mode)
  ∧ (∀ (D : DiffuseBxDF) (wo wi : Vec3) (mode : TransportMode),
        D.f M wo wi mode = D.f M wi wo mode)
  ∧ (∀ (frC : ℚ → Spectrum → Spectrum → Spectrum) (C : ConductorBxDF) (wo wi : Vec3)
        (mode : TransportMode),
        (∀ a b, C.mfDistrib.G a b = C.mfDistrib.G b a) → lenSq wo = 1 → lenSq wi = 1 →
        C.f M frC wo wi mode = C.f M frC wi wo mode)
  ∧ (∀ (B : SpecularReflectionBxDF) (wo wi : Vec3) (mode : TransportMode),
        B.f wo wi mode = B.f wi wo mode)
  ∧ (∀ (B : SpecularTransmissionBxDF) (wo wi : Vec3) (mode : TransportMode),
        B.f wo wi mode = B.f wi wo mode)
  ∧ (∀ (B : ThinDielectricBxDF) (wo wi : Vec3) (mode : TransportMode),
        B.f wo wi mode = B.f wi wo mode) :=
  ⟨idealDiffuse_f_comm M, diffuse_f_comm M,
   fun frC C wo wi mode hG hwo hwi => conductor_f_comm M frC C wo wi mode hG hwo hwi,
   fun _ _ _ _ => rfl, fun _ _ _ _ => rfl, fun _ _ _ _ => rfl⟩

theorem nonlayered_reciprocity_witness :
    ((∀ a b, roughConductor.mfDistrib.G a b = roughConductor.mfDistrib.G b a)
      ∧ lenSq ⟨0, 0, 1⟩ = 1 ∧ lenSq ⟨3 / 5, 0, 4 / 5⟩ = 1)
    ∧ roughConductor.f concreteModel (fun _ _ _ => Spectrum.ofRat 1) ⟨0, 0, 1⟩
        ⟨3 / 5, 0, 4 / 5⟩ TransportMode.Radiance
      = roughConductor.f concreteModel (fun _ _ _ => Spectrum.ofRat 1) ⟨3 / 5, 0, 4 / 5⟩
        ⟨0, 0, 1⟩ TransportMode.Radiance :=
  ⟨⟨fun _ _ => rfl, by decide, by decide⟩,
    (nonlayered_reciprocity concreteModel).2.2.1 (fun _ _ _ => Spectrum.ofRat 1)
      roughConductor ⟨0, 0, 1⟩ ⟨3 / 5, 0, 4 / 5⟩ TransportMode.Radiance (fun _ _ => rfl)
      (by decide) (by decide)⟩

/-- C5 (counterexample to the claim as stated): the normalized-Fresnel
variant evaluates the dielectric Fresnel term only at `wi`'s cosine, so
exchanging the two unit directions `(0,0,1)` and `(2/3,2/3,1/3)` changes
the value; the mode-dependent `eta^2` correction is a constant factor and
cannot repair the asymmetry. -/
theorem normalizedFresnel_asymmetric_counterexample :
    NormalizedFresnelBxDF.f concreteModel (fun _ => 1 / 10) ⟨2⟩ ⟨0, 0, 1⟩
        ⟨2 / 3, 2 / 3, 1 / 3⟩ TransportMode.Importance
      ≠ NormalizedFresnelBxDF.f concreteModel (fun _ => 1 / 10) ⟨2⟩ ⟨2 / 3, 2 / 3, 1 / 3⟩
        ⟨0, 0, 1⟩ TransportMode.Importance := by
  decide

end PbrtSpec
